import Mathlib

/-!
# Contabilito: registration transaction and login

A shallow embedding of `src/pages/api/register.js`, `src/pages/api/login.js`
and of the three tables of `src/db/db.js` that these two endpoints touch
(`users`, `companies`, `user_company_roles`).

Modelling conventions.

* A table is the list of its rows in rowid order, which is the order in which a
  full table scan visits them. Every table is `AUTOINCREMENT`, so the store also
  carries the three `sqlite_sequence` counters.
* Each request opens its own connection (`initializeDatabase` calls `open`), so a
  request starts on a connection with no open transaction. Rows written inside a
  transaction live in the connection's private view until `COMMIT`.
* JavaScript strings are sequences of Unicode scalar values; `length` counts
  UTF-16 code units. The six textual request fields are either absent or strings;
  `termsAccepted` may be any scalar JSON value (numbers are integers).
* `bcrypt`, the clock, storage failures and two points on which the storage
  engine is not determined by the repository are parameters (`Env`).
* Rowids are 64-bit: an insert fails once its table has used the rowid `2^63 - 1`,
  and the engine then rolls the open transaction back. Ids reach JavaScript as
  numbers; the model keeps them exact, which is what the code sees while ids are at
  most `2^53`, and statements about the ids a call returns carry that bound.
-/

namespace Contabilito

/-! ## JavaScript and SQL string primitives -/

/-- JavaScript `s.length`: the number of UTF-16 code units of `s`. -/
def jsLength (s : String) : Nat :=
  (s.data.map (fun c => if c.toNat < 65536 then 1 else 2)).sum

/-- White space and line terminators removed by JavaScript `String.prototype.trim`. -/
def isJsWhitespace (c : Char) : Bool :=
  let n := c.toNat
  n = 9 || n = 10 || n = 11 || n = 12 || n = 13 || n = 32 || n = 160 || n = 5760 ||
  (8192 ≤ n && n ≤ 8202) || n = 8232 || n = 8233 || n = 8239 || n = 8287 ||
  n = 12288 || n = 65279

/-- JavaScript `s.trim()`. -/
def jsTrim (s : String) : String :=
  ⟨((s.data.dropWhile isJsWhitespace).reverse.dropWhile isJsWhitespace).reverse⟩

/-- Lower-casing of one character by the SQL function `LOWER`, which folds the
letters `A` to `Z` only. -/
def lowerChar (c : Char) : Char :=
  if 65 ≤ c.toNat ∧ c.toNat ≤ 90 then Char.ofNat (c.toNat + 32) else c

/-- The SQL function `LOWER(s)` of the storage engine. -/
def sqlLower (s : String) : String :=
  ⟨s.data.map lowerChar⟩

/-- Search of `needle` at the head of every suffix of the text. -/
def includesAux (needle : List Char) : List Char → Bool
  | [] => needle.isEmpty
  | c :: cs => needle.isPrefixOf (c :: cs) || includesAux needle cs

/-- JavaScript `hay.includes(needle)`. -/
def jsIncludes (hay needle : String) : Bool :=
  includesAux needle.data hay.data

/-- A scalar JSON value as seen by JavaScript after destructuring the request body;
`undefined` stands for an absent key. -/
inductive JsVal where
  | undefined
  | null
  | bool (b : Bool)
  | num (n : Int)
  | str (s : String)
  deriving DecidableEq, Repr

/-- JavaScript truthiness of a scalar value. -/
def JsVal.truthy : JsVal → Bool
  | .undefined => false
  | .null => false
  | .bool b => b
  | .num n => n != 0
  | .str s => s != ""

/-- JavaScript truthiness of a textual field: present and not the empty string. -/
def truthy : Option String → Bool
  | none => false
  | some s => s != ""

/-- The string carried by a textual field that passed the truthiness test. -/
def text (f : Option String) : String := f.getD ""

/-! ## Data model (`src/db/db.js`) -/

/-- A row of table `users`. -/
structure UserRow where
  id : Nat
  email : String
  password : String
  first_name : String
  last_name : String
  username : String
  created_at : String
  reset_token : Option String
  reset_token_expires_at : Option String
  terms_accepted : Int
  deriving DecidableEq, Repr

/-- A row of table `companies`. -/
structure CompanyRow where
  id : Nat
  company_name : String
  owner_user_id : Nat
  created_at : String
  industry : Option String
  address : Option String
  deriving DecidableEq, Repr

/-- A row of table `user_company_roles`. -/
structure RoleRow where
  id : Nat
  user_id : Nat
  company_id : Nat
  role : String
  created_at : String
  deriving DecidableEq, Repr

/-- The persistent state: the three tables and their `sqlite_sequence` counters. -/
structure Store where
  users : List UserRow
  companies : List CompanyRow
  roles : List RoleRow
  userSeq : Nat
  companySeq : Nat
  roleSeq : Nat
  deriving DecidableEq, Repr

/-- The freshly provisioned database. -/
def Store.empty : Store := ⟨[], [], [], 0, 0, 0⟩

/-- Statements of the registration transaction at which a storage failure can be
injected; `some msg` makes the statement throw an error with message `msg`
instead of running. -/
structure Faults where
  begin : Option String
  insertUser : Option String
  selectCompany : Option String
  insertCompany : Option String
  insertRole : Option String
  commit : Option String
  rollbackCompanyExists : Option String
  rollbackCatch : Option String
  deriving DecidableEq, Repr

/-- No injected storage failure. -/
def Faults.none : Faults := ⟨.none, .none, .none, .none, .none, .none, .none, .none⟩

/-- What a call of the endpoint takes from its surroundings. -/
structure Env where
  /-- The value of `new Date().toISOString()`. -/
  createdAt : String
  /-- The function `bcrypt.hash(·, 10)` with the salt drawn for this call. -/
  hash : String → String
  /-- Injected storage failures. -/
  faults : Faults
  /-- The integer the engine stores in the `INTEGER` column `terms_accepted` for a
  text value, or nothing when its `CHECK` rejects the text. -/
  termsText : String → Option Int
  /-- Whether the engine tests the unique index on `username` before the one on
  `email`. -/
  usernameIndexFirst : Bool

/-- A connection: the committed store, and the private view of the open
transaction if there is one. -/
structure Conn where
  committed : Store
  txn : Option Store
  deriving DecidableEq, Repr

/-- The store as statements on this connection see it. -/
def Conn.view (c : Conn) : Store := c.txn.getD c.committed

/-- Effect of a successful write statement: inside a transaction it changes the
private view, otherwise it is committed at once. -/
def Conn.write (c : Conn) (s : Store) : Conn :=
  match c.txn with
  | some _ => { c with txn := some s }
  | none => { c with committed := s }

/-- Statement `BEGIN TRANSACTION`. -/
def Conn.begin (f : Faults) (c : Conn) : Except String Conn :=
  match f.begin with
  | some msg => .error msg
  | none =>
    match c.txn with
    | some _ => .error "SQLITE_ERROR: cannot start a transaction within a transaction"
    | none => .ok { c with txn := some c.committed }

/-- Statement `COMMIT`. -/
def Conn.commit (f : Faults) (c : Conn) : Except String Conn :=
  match f.commit with
  | some msg => .error msg
  | none =>
    match c.txn with
    | some s => .ok { committed := s, txn := none }
    | none => .error "SQLITE_ERROR: cannot commit - no transaction is active"

/-- Statement `ROLLBACK`; `fault` is the failure injected at this occurrence. -/
def Conn.rollback (fault : Option String) (c : Conn) : Except String Conn :=
  match fault with
  | some msg => .error msg
  | none =>
    match c.txn with
    | some _ => .ok { c with txn := none }
    | none => .error "SQLITE_ERROR: cannot rollback - no transaction is active"

/-- The largest rowid of the storage engine, `2^63 - 1`. -/
def maxRowid : Nat := 9223372036854775807

/-- The bound `2^53` up to which every integer is a JavaScript number; `lastID`
reaches the code as a JavaScript number. -/
def exactLimit : Nat := 9007199254740992

/-- One more than the largest rowid the table holds or has ever held. -/
def freshId (seq : Nat) (ids : List Nat) : Nat :=
  max seq (ids.foldr max 0) + 1

/-- The rowid an `AUTOINCREMENT` table gives its next row: one more than the
largest rowid the table holds or has ever held, and nothing once the largest
rowid of the engine has been used. -/
def nextId (seq : Nat) (ids : List Nat) : Option Nat :=
  if freshId seq ids ≤ maxRowid then some (freshId seq ids) else none

/-- Message of the error an insert raises when no rowid is left. -/
def fullError : String := "SQLITE_FULL: database or disk is full"

/-- The connection after an insert found no rowid left: the engine rolls the open
transaction back by itself, so a later `ROLLBACK` finds no transaction. -/
def Conn.abort (c : Conn) : Conn := { c with txn := none }

/-- The value stored in column `terms_accepted INTEGER NOT NULL
CHECK(terms_accepted IN (0, 1))` for a bound parameter, or the constraint error. -/
def termsColumn (env : Env) : JsVal → Except String Int
  | .undefined => .error "SQLITE_CONSTRAINT: NOT NULL constraint failed: users.terms_accepted"
  | .null => .error "SQLITE_CONSTRAINT: NOT NULL constraint failed: users.terms_accepted"
  | .bool b => .ok (if b then 1 else 0)
  | .num n =>
    if n = 0 ∨ n = 1 then .ok n
    else .error "SQLITE_CONSTRAINT: CHECK constraint failed: terms_accepted IN (0, 1)"
  | .str s =>
    match env.termsText s with
    | some n => .ok n
    | none => .error "SQLITE_CONSTRAINT: CHECK constraint failed: terms_accepted IN (0, 1)"

/-- Message of the violated unique index on `users.email`. -/
def emailTakenError : String := "SQLITE_CONSTRAINT: UNIQUE constraint failed: users.email"

/-- Message of the violated unique index on `users.username`. -/
def usernameTakenError : String := "SQLITE_CONSTRAINT: UNIQUE constraint failed: users.username"

/-- The two `UNIQUE` columns of `users` (binary collation: exact comparison): the
message of the violated index, if any. -/
def uniqueUsers (env : Env) (s : Store) (email username : String) : Option String :=
  let emailTaken := s.users.any (fun u => u.email = email)
  let usernameTaken := s.users.any (fun u => u.username = username)
  if env.usernameIndexFirst then
    if usernameTaken then some usernameTakenError
    else if emailTaken then some emailTakenError
    else none
  else
    if emailTaken then some emailTakenError
    else if usernameTaken then some usernameTakenError
    else none

/-- Statement `INSERT INTO users (first_name, last_name, username, email, password,
terms_accepted, created_at) VALUES (?, ?, ?, ?, ?, ?, ?)`. The rowid is drawn before
the constraints are tested. The result is `lastID`, which reaches the code as a
JavaScript number: it is the rowid itself while the rowid is at most `exactLimit`,
and the model returns the rowid. An error comes with the connection as the failed
statement left it. -/
def insertUser (env : Env) (c : Conn) (firstName lastName username email hashedPassword : String)
    (termsAccepted : JsVal) (createdAt : String) : Except (String × Conn) (Nat × Conn) :=
  match env.faults.insertUser with
  | some msg => .error (msg, c)
  | none =>
    match nextId c.view.userSeq (c.view.users.map (·.id)) with
    | none => .error (fullError, c.abort)
    | some id =>
      match termsColumn env termsAccepted with
      | .error e => .error (e, c)
      | .ok terms =>
        match uniqueUsers env c.view email username with
        | some e => .error (e, c)
        | none =>
          let row : UserRow :=
            { id := id, email := email, password := hashedPassword, first_name := firstName,
              last_name := lastName, username := username, created_at := createdAt,
              reset_token := none, reset_token_expires_at := none, terms_accepted := terms }
          .ok (id, c.write { c.view with users := c.view.users ++ [row], userSeq := id })

/-- Statement `SELECT id FROM companies WHERE LOWER(company_name) = LOWER(?)`
through `db.get`: the id of the first matching row. -/
def selectCompany (env : Env) (c : Conn) (name : String) : Except String (Option Nat) :=
  match env.faults.selectCompany with
  | some msg => .error msg
  | none =>
    .ok ((c.view.companies.find? (fun r => sqlLower r.company_name = sqlLower name)).map (·.id))

/-- Statement `INSERT INTO companies (company_name, owner_user_id, created_at)
VALUES (?, ?, ?)`; the result is `lastID`, as for `insertUser`. -/
def insertCompany (env : Env) (c : Conn) (companyName : String) (ownerUserId : Nat)
    (createdAt : String) : Except (String × Conn) (Nat × Conn) :=
  match env.faults.insertCompany with
  | some msg => .error (msg, c)
  | none =>
    match nextId c.view.companySeq (c.view.companies.map (·.id)) with
    | none => .error (fullError, c.abort)
    | some id =>
      if c.view.companies.any (fun r => r.company_name = companyName) then
        .error ("SQLITE_CONSTRAINT: UNIQUE constraint failed: companies.company_name", c)
      else
        let row : CompanyRow :=
          { id := id, company_name := companyName, owner_user_id := ownerUserId,
            created_at := createdAt, industry := none, address := none }
        .ok (id, c.write { c.view with companies := c.view.companies ++ [row], companySeq := id })

/-- Statement `INSERT INTO user_company_roles (user_id, company_id, role, created_at)
VALUES (?, ?, ?, ?)`. -/
def insertRole (env : Env) (c : Conn) (userId companyId : Nat) (role createdAt : String) :
    Except (String × Conn) Conn :=
  match env.faults.insertRole with
  | some msg => .error (msg, c)
  | none =>
    match nextId c.view.roleSeq (c.view.roles.map (·.id)) with
    | none => .error (fullError, c.abort)
    | some id =>
      if ¬ (role = "owner" ∨ role = "admin" ∨ role = "accountant" ∨ role = "viewer") then
        .error ("SQLITE_CONSTRAINT: CHECK constraint failed: user_company_roles", c)
      else if c.view.roles.any (fun r => r.user_id = userId ∧ r.company_id = companyId) then
        .error ("SQLITE_CONSTRAINT: UNIQUE constraint failed: user_company_roles.user_id, user_company_roles.company_id", c)
      else
        let row : RoleRow :=
          { id := id, user_id := userId, company_id := companyId, role := role,
            created_at := createdAt }
        .ok (c.write { c.view with roles := c.view.roles ++ [row], roleSeq := id })

/-! ## Registration (`src/pages/api/register.js`) -/

namespace Register

/-- The JSON body of the request after destructuring. -/
structure Request where
  firstName : Option String
  lastName : Option String
  username : Option String
  companyName : Option String
  email : Option String
  password : Option String
  termsAccepted : JsVal
  deriving DecidableEq, Repr

/-- The JSON body of a response: a bare message, or the success body with
`userId` and `companyId` (`none` is JSON `null`). -/
inductive Body where
  | message (text : String)
  | created (text : String) (userId : Nat) (companyId : Option Nat)
  deriving DecidableEq, Repr

/-- An HTTP response of the endpoint. -/
structure Response where
  status : Nat
  body : Body
  deriving DecidableEq, Repr

/-- Response of line 23. -/
def missingField : Response :=
  ⟨400, .message "All required user fields must be completed."⟩

/-- Response of line 29. -/
def weakPassword : Response :=
  ⟨400, .message "Password must be at least 6 characters long."⟩

/-- Response of line 35. -/
def termsNotAccepted : Response :=
  ⟨400, .message "You must accept the Terms and Conditions."⟩

/-- Response of line 72. -/
def companyNameTaken : Response :=
  ⟨409, .message "A company with this name already exists."⟩

/-- Response of line 115. -/
def emailTaken : Response :=
  ⟨409, .message "This email is already registered."⟩

/-- Response of line 121. -/
def usernameTaken : Response :=
  ⟨409, .message "This username is already in use."⟩

/-- Response of line 128. -/
def databaseError : Response :=
  ⟨500, .message "Error registering user/company in the database."⟩

/-- Response of line 136. -/
def internalError : Response :=
  ⟨500, .message "Internal server error during registration."⟩

/-- Response of line 102; `companyId ? … : …` tests the id for truthiness. -/
def created (userId : Nat) (companyId : Option Nat) : Response :=
  ⟨201, .created
    ("User registered successfully" ++
      (if companyId.any (fun n => n != 0) then " and company created." else "."))
    userId companyId⟩

/-- Lines 100 to 109: `COMMIT`, then the 201 response. -/
def commitAndRespond (env : Env) (c : Conn) (userId : Nat) (companyId : Option Nat) :
    Except String Response × Conn :=
  match c.commit env.faults with
  | .error e => (.error e, c)
  | .ok c1 => (.ok (created userId companyId), c1)

/-- The body of the inner `try` (lines 47 to 110): the outcome is a response
that was returned or the message of the error that was thrown, together with the
connection as the statements left it. -/
def transaction (env : Env) (c0 : Conn) (firstName lastName username email hashedPassword : String)
    (termsAccepted : JsVal) (companyName : Option String) (createdAt : String) :
    Except String Response × Conn :=
  match c0.begin env.faults with
  | .error e => (.error e, c0)
  | .ok c1 =>
    match insertUser env c1 firstName lastName username email hashedPassword termsAccepted
        createdAt with
    | .error (e, c2) => (.error e, c2)
    | .ok (userId, c2) =>
      if truthy companyName ∧ jsTrim (text companyName) ≠ "" then
        match selectCompany env c2 (text companyName) with
        | .error e => (.error e, c2)
        | .ok (some _) =>
          match c2.rollback env.faults.rollbackCompanyExists with
          | .error e => (.error e, c2)
          | .ok c3 => (.ok companyNameTaken, c3)
        | .ok none =>
          match insertCompany env c2 (jsTrim (text companyName)) userId createdAt with
          | .error (e, c3) => (.error e, c3)
          | .ok (companyId, c3) =>
            match insertRole env c3 userId companyId "owner" createdAt with
            | .error (e, c4) => (.error e, c4)
            | .ok c4 => commitAndRespond env c4 userId (some companyId)
      else
        commitAndRespond env c2 userId none

/-- The `catch (dbError)` block (lines 111 to 132); a failing `ROLLBACK` is caught
by the outer `catch` (line 134). -/
def onDbError (env : Env) (c : Conn) (message : String) : Response × Conn :=
  match c.rollback env.faults.rollbackCatch with
  | .error _ => (internalError, c)
  | .ok c1 =>
    if jsIncludes message "SQLITE_CONSTRAINT: UNIQUE constraint failed: users.email" then
      (emailTaken, c1)
    else if jsIncludes message "SQLITE_CONSTRAINT: UNIQUE constraint failed: users.username" then
      (usernameTaken, c1)
    else
      (databaseError, c1)

/-- The handler `POST` of `register.js` on a fresh connection to `store`: the
response and the connection as the call leaves it. -/
def POST (env : Env) (store : Store) (req : Request) : Response × Conn :=
  let db : Conn := { committed := store, txn := none }
  if ¬ truthy req.firstName ∨ ¬ truthy req.lastName ∨ ¬ truthy req.username ∨
      ¬ truthy req.email ∨ ¬ truthy req.password ∨ req.termsAccepted = JsVal.undefined then
    (missingField, db)
  else if jsLength (text req.password) < 6 then
    (weakPassword, db)
  else if ¬ req.termsAccepted.truthy then
    (termsNotAccepted, db)
  else
    let hashedPassword := env.hash (text req.password)
    let createdAt := env.createdAt
    match transaction env db (text req.firstName) (text req.lastName) (text req.username)
        (text req.email) hashedPassword req.termsAccepted req.companyName createdAt with
    | (.ok response, c) => (response, c)
    | (.error message, c) => onDbError env c message

/-- The store other connections see once the call has returned. -/
def storeAfter (env : Env) (store : Store) (req : Request) : Store :=
  (POST env store req).2.committed

end Register

/-! ## Login (`src/pages/api/login.js`) -/

namespace Login

/-- The object `userResponse` of line 51. -/
structure UserView where
  id : Nat
  email : String
  username : String
  firstName : String
  lastName : String
  deriving DecidableEq, Repr

/-- The JSON body of a response. -/
inductive Body where
  | message (text : String)
  | success (text : String) (user : UserView)
  deriving DecidableEq, Repr

/-- An HTTP response of the endpoint. -/
structure Response where
  status : Nat
  body : Body
  deriving DecidableEq, Repr

/-- Statement `SELECT * FROM users WHERE LOWER(email) = LOWER(?) OR
LOWER(username) = LOWER(?)` through `db.get`: the first matching row of the scan. -/
def selectUser (store : Store) (identifier : String) : Option UserRow :=
  store.users.find? (fun u =>
    sqlLower u.email = sqlLower identifier ∨ sqlLower u.username = sqlLower identifier)

/-- The handler `POST` of `login.js`; `compare` is `bcrypt.compare`. -/
def POST (compare : String → String → Bool) (store : Store)
    (identifier password : Option String) : Response :=
  if ¬ truthy identifier ∨ ¬ truthy password then
    ⟨400, .message "User/Email and password are required."⟩
  else
    match selectUser store (text identifier) with
    | none => ⟨401, .message "Invalid credentials."⟩
    | some user =>
      if ¬ compare (text password) user.password then
        ⟨401, .message "Invalid credentials."⟩
      else
        ⟨200, .success "Login successful."
          { id := user.id, email := user.email, username := user.username,
            firstName := user.first_name, lastName := user.last_name }⟩

end Login

/-! ## Vocabulary of the specification -/

/-- A textual field is missing or empty. -/
def Missing (f : Option String) : Prop := f = none ∨ f = some ""

/-- A valid registration request: the five required fields present, a password of
length at least 6, and `termsAccepted` true. -/
def Register.Request.Valid (req : Register.Request) : Prop :=
  truthy req.firstName ∧ truthy req.lastName ∧ truthy req.username ∧ truthy req.email ∧
  truthy req.password ∧ 6 ≤ jsLength (text req.password) ∧ req.termsAccepted = JsVal.bool true

/-- The request asks for a company: `companyName` is present and not blank after
trimming (the test of line 67). -/
def Register.Request.WantsCompany (req : Register.Request) : Prop :=
  truthy req.companyName ∧ jsTrim (text req.companyName) ≠ ""

/-- Some user row of the store has this email. -/
def Store.HasEmail (s : Store) (email : String) : Prop :=
  ∃ u ∈ s.users, u.email = email

/-- Some user row of the store has this username. -/
def Store.HasUsername (s : Store) (username : String) : Prop :=
  ∃ u ∈ s.users, u.username = username

/-- Some company row has exactly this name (what the `UNIQUE` index on
`company_name` tests). -/
def Store.HasCompanyName (s : Store) (name : String) : Prop :=
  ∃ r ∈ s.companies, r.company_name = name

/-- Some company row has this name up to the case of the letters `A` to `Z` (what
the lookup of line 69 tests). -/
def Store.MatchesCompany (s : Store) (name : String) : Prop :=
  ∃ r ∈ s.companies, sqlLower r.company_name = sqlLower name

/-- The users table can still assign a rowid. -/
def Store.UserIdsLeft (s : Store) : Prop :=
  freshId s.userSeq (s.users.map (·.id)) ≤ maxRowid

/-- The companies table can still assign a rowid. -/
def Store.CompanyIdsLeft (s : Store) : Prop :=
  freshId s.companySeq (s.companies.map (·.id)) ≤ maxRowid

/-- The roles table can still assign a rowid. -/
def Store.RoleIdsLeft (s : Store) : Prop :=
  freshId s.roleSeq (s.roles.map (·.id)) ≤ maxRowid

/-- The next user id is at most `2^53`, so that `lastID` carries it exactly. -/
def Store.UserIdExact (s : Store) : Prop :=
  freshId s.userSeq (s.users.map (·.id)) ≤ exactLimit

/-- The next company id is at most `2^53`, so that `lastID` carries it exactly. -/
def Store.CompanyIdExact (s : Store) : Prop :=
  freshId s.companySeq (s.companies.map (·.id)) ≤ exactLimit

/-- No role row carries the pair of the ids the next user and the next company
receive. -/
def Store.NextPairFree (s : Store) : Prop :=
  ∀ r ∈ s.roles, ¬ (r.user_id = freshId s.userSeq (s.users.map (·.id)) ∧
    r.company_id = freshId s.companySeq (s.companies.map (·.id)))

/-- Referential integrity declared by `FOREIGN KEY (user_id) REFERENCES users(id)`:
every role row points at an existing user. -/
def Store.RolesReferUsers (s : Store) : Prop :=
  ∀ r ∈ s.roles, ∃ u ∈ s.users, u.id = r.user_id

/-- The user row a registration inserts. -/
def Register.newUser (env : Env) (store : Store) (req : Register.Request) : UserRow :=
  { id := freshId store.userSeq (store.users.map (·.id)),
    email := text req.email,
    password := env.hash (text req.password),
    first_name := text req.firstName,
    last_name := text req.lastName,
    username := text req.username,
    created_at := env.createdAt,
    reset_token := none,
    reset_token_expires_at := none,
    terms_accepted := 1 }

/-- The company row a registration with a company inserts. -/
def Register.newCompany (env : Env) (store : Store) (req : Register.Request) : CompanyRow :=
  { id := freshId store.companySeq (store.companies.map (·.id)),
    company_name := jsTrim (text req.companyName),
    owner_user_id := freshId store.userSeq (store.users.map (·.id)),
    created_at := env.createdAt,
    industry := none,
    address := none }

/-- The role row a registration with a company inserts. -/
def Register.newRole (env : Env) (store : Store) : RoleRow :=
  { id := freshId store.roleSeq (store.roles.map (·.id)),
    user_id := freshId store.userSeq (store.users.map (·.id)),
    company_id := freshId store.companySeq (store.companies.map (·.id)),
    role := "owner",
    created_at := env.createdAt }

/-- The store with one more user row. -/
def Store.plusUser (s : Store) (u : UserRow) : Store :=
  { s with users := s.users ++ [u], userSeq := u.id }

/-- The store with one more user row, company row and role row. -/
def Store.plusCompany (s : Store) (u : UserRow) (c : CompanyRow) (r : RoleRow) : Store :=
  { users := s.users ++ [u], companies := s.companies ++ [c], roles := s.roles ++ [r],
    userSeq := u.id, companySeq := c.id, roleSeq := r.id }

/-- The two ways in which a register call answered 201 has changed the store: one
user row, or one user row with its company and its owner role. The arguments are
the email, username and password hash bound to the insert of line 52. -/
inductive Register.Created (store : Store) (email username hashed : String) :
    Register.Response → Store → Prop where
  | user (u : UserRow) :
      u.id = freshId store.userSeq (store.users.map (·.id)) →
      u.email = email → u.username = username → u.password = hashed →
      ¬ store.HasEmail email → ¬ store.HasUsername username →
      Register.Created store email username hashed
        (Register.created u.id none) (store.plusUser u)
  | company (u : UserRow) (c : CompanyRow) (r : RoleRow) :
      u.id = freshId store.userSeq (store.users.map (·.id)) →
      u.email = email → u.username = username → u.password = hashed →
      ¬ store.HasEmail email → ¬ store.HasUsername username →
      c.id = freshId store.companySeq (store.companies.map (·.id)) →
      c.owner_user_id = u.id →
      r.user_id = u.id → r.company_id = c.id → r.role = "owner" →
      Register.Created store email username hashed
        (Register.created u.id (some c.id)) (store.plusCompany u c r)

/-- The number of role rows of the pair (user, company). -/
def Store.roleCount (s : Store) (userId companyId : Nat) : Nat :=
  (s.roles.filter (fun r => r.user_id = userId ∧ r.company_id = companyId)).length

/-- Owners and roles are linked: every company is owned by an existing user who
holds exactly one role row for it, that row says owner, every role row points at an
existing user, and no pair (user, company) has two role rows. -/
structure Store.Linked (s : Store) : Prop where
  owner_exists : ∀ c ∈ s.companies, ∃ u ∈ s.users, u.id = c.owner_user_id
  owner_role : ∀ c ∈ s.companies, s.roleCount c.owner_user_id c.id = 1
  owner_named : ∀ c ∈ s.companies, ∀ r ∈ s.roles,
    r.user_id = c.owner_user_id → r.company_id = c.id → r.role = "owner"
  roles_refer : s.RolesReferUsers
  pair_unique : ∀ userId companyId, s.roleCount userId companyId ≤ 1

/-- Some user row matches the identifier in the lookup of `login.js`: on email or
on username, up to the case of the letters `A` to `Z`. -/
def Store.Matches (s : Store) (identifier : String) : Prop :=
  ∃ v ∈ s.users, sqlLower v.email = sqlLower identifier ∨
    sqlLower v.username = sqlLower identifier

/-- The store with the password hash and the reset-token fields of every user row
replaced by the values `secrets` gives for the row. -/
def Store.withSecrets (s : Store)
    (secrets : UserRow → String × Option String × Option String) : Store :=
  { s with users := s.users.map (fun u =>
      { u with password := (secrets u).1, reset_token := (secrets u).2.1,
               reset_token_expires_at := (secrets u).2.2 }) }

/-- Stores reachable from the freshly provisioned database by register calls,
successful or not, each in its own environment. -/
inductive Reachable : Store → Prop where
  | empty : Reachable Store.empty
  | register (env : Env) (req : Register.Request) {s : Store} :
      Reachable s → Reachable (Register.storeAfter env s req)

/-! ## Concrete data for evaluation -/

namespace Example

/-- A stand-in for `bcrypt.hash`. -/
def hash (password : String) : String := "$2b$10$" ++ password

/-- A stand-in for `bcrypt.compare`, with `compare p (hash p) = true`. -/
def compare (password hashed : String) : Bool := hashed = hash password

/-- An environment without storage failures. -/
def env : Env :=
  { createdAt := "2024-01-01T00:00:00.000Z", hash := hash, faults := Faults.none,
    termsText := fun _ => none, usernameIndexFirst := false }

/-- The same environment with a failing insert into `user_company_roles`. -/
def envRoleFails : Env :=
  { env with faults := { Faults.none with insertRole := some "SQLITE_IOERR: disk I/O error" } }

/-- Ana registers and founds the company Acme. -/
def ana : Register.Request :=
  { firstName := some "Ana", lastName := some "Diaz", username := some "ana",
    companyName := some "Acme", email := some "A@B.com", password := some "secret1",
    termsAccepted := .bool true }

/-- Bob registers without a company; his email is that of Ana in lower case. -/
def bob : Register.Request :=
  { firstName := some "Bob", lastName := some "Rey", username := some "bob",
    companyName := none, email := some "a@b.com", password := some "secret2",
    termsAccepted := .bool true }

/-- Carl asks for the company " acme", with a leading blank. -/
def carl : Register.Request :=
  { firstName := some "Carl", lastName := some "Paz", username := some "carl",
    companyName := some " acme", email := some "carl@c.com", password := some "secret3",
    termsAccepted := .bool true }

/-- Dan registers and founds the company Bits. -/
def dan : Register.Request :=
  { firstName := some "Dan", lastName := some "Mora", username := some "dan",
    companyName := some "  Bits ", email := some "dan@bits.io", password := some "secret5",
    termsAccepted := .bool true }

/-- A request without the key `termsAccepted`. -/
def noTerms : Register.Request :=
  { firstName := some "Dora", lastName := some "Gil", username := some "dora",
    companyName := none, email := some "dora@d.com", password := some "secret4",
    termsAccepted := .undefined }

/-- A request with `termsAccepted` false and a password of three characters. -/
def shortNoTerms : Register.Request :=
  { firstName := some "Eva", lastName := some "Sol", username := some "eva",
    companyName := none, email := some "eva@e.com", password := some "abc",
    termsAccepted := .bool false }

/-- A second registration with the email of Ana under another username. -/
def anaAgain : Register.Request :=
  { firstName := some "Ana", lastName := some "Diaz", username := some "ana2",
    companyName := none, email := some "A@B.com", password := some "secret6",
    termsAccepted := .bool true }

/-- A request with a password of five characters. -/
def fiveChars : Register.Request :=
  { firstName := some "Flor", lastName := some "Luz", username := some "flor",
    companyName := some "Flores", email := some "flor@f.com", password := some "12345",
    termsAccepted := .bool true }

/-- The request of Dan with `termsAccepted` false. -/
def danRefuses : Register.Request :=
  { firstName := some "Dan", lastName := some "Mora", username := some "dan",
    companyName := some "  Bits ", email := some "dan@bits.io", password := some "secret5",
    termsAccepted := .bool false }

/-- The request of Dan with an empty email. -/
def danNoEmail : Register.Request :=
  { firstName := some "Dan", lastName := some "Mora", username := some "dan",
    companyName := some "  Bits ", email := some "", password := some "secret5",
    termsAccepted := .bool true }

/-- The request of Carl with a trailing blank after the stored company name. -/
def carlTrailing : Register.Request :=
  { firstName := some "Carl", lastName := some "Paz", username := some "carl",
    companyName := some "Acme ", email := some "carl@c.com", password := some "secret3",
    termsAccepted := .bool true }

/-- The row of Ana once registered. -/
def anaRow : UserRow :=
  { id := 1, email := "A@B.com", password := "$2b$10$secret1", first_name := "Ana",
    last_name := "Diaz", username := "ana", created_at := "2024-01-01T00:00:00.000Z",
    reset_token := none, reset_token_expires_at := none, terms_accepted := 1 }

/-- The row of Bob once registered after Ana. -/
def bobRow : UserRow :=
  { id := 2, email := "a@b.com", password := "$2b$10$secret2", first_name := "Bob",
    last_name := "Rey", username := "bob", created_at := "2024-01-01T00:00:00.000Z",
    reset_token := none, reset_token_expires_at := none, terms_accepted := 1 }

/-- The store after the registration of Ana. -/
def storeAna : Store := Register.storeAfter env Store.empty ana

/-- The store after the registrations of Ana and Bob. -/
def storeAnaBob : Store := Register.storeAfter env storeAna bob

/-- A registration whose email and username are those of Ana in another casing. -/
def anaUpper : Register.Request :=
  { firstName := some "Ana", lastName := some "Ruiz", username := some "ANA",
    companyName := none, email := some "a@b.com", password := some "secret8",
    termsAccepted := .bool true }

/-- Eve registers with the email of Ana as her username. -/
def eve : Register.Request :=
  { firstName := some "Eve", lastName := some "Rojas", username := some "A@B.com",
    companyName := none, email := some "eve@e.com", password := some "secret7",
    termsAccepted := .bool true }

/-- The empty store once its users table has used the largest rowid. -/
def storeUsersFull : Store := { Store.empty with userSeq := maxRowid }

/-- The store of Ana once its users table has used the largest rowid. -/
def storeAnaUsersFull : Store := { storeAna with userSeq := maxRowid }

/-- The store of Ana once its companies table has used the largest rowid. -/
def storeAnaCompaniesFull : Store := { storeAna with companySeq := maxRowid }

/-- A store holding one role row for user 1 and company 1, neither of which
exists. -/
def storeStaleRole : Store :=
  { Store.empty with
    roles := [{ id := 1, user_id := 1, company_id := 1, role := "owner",
                created_at := "2023-06-01T00:00:00.000Z" }],
    roleSeq := 1 }

/-- The store after the registrations of Ana and of her namesake. -/
def storeAnaUpper : Store := Register.storeAfter env storeAna anaUpper

/-- The store after the registrations of Ana and Eve. -/
def storeAnaEve : Store := Register.storeAfter env storeAna eve

end Example

/-! ## Lemmas on the storage statements -/

open Register

theorem Conn.write_committed (c : Conn) (s : Store) (h : c.txn.isSome) :
    (c.write s).committed = c.committed ∧ (c.write s).txn = some s := by
  unfold Conn.write
  cases hc : c.txn with
  | none => simp [hc] at h
  | some t => simp

theorem nextId_some (seq : Nat) (ids : List Nat) (h : freshId seq ids ≤ maxRowid) :
    nextId seq ids = some (freshId seq ids) := by
  simp [nextId, h]

theorem nextId_inv (seq : Nat) (ids : List Nat) (id : Nat) (h : nextId seq ids = some id) :
    id = freshId seq ids ∧ freshId seq ids ≤ maxRowid := by
  unfold nextId at h
  split at h
  · rename_i hle
    simp only [Option.some.injEq] at h
    exact ⟨h.symm, hle⟩
  · simp at h

theorem insertUser_committed (env : Env) (c c1 : Conn) (a b u e p : String) (t : JsVal) (d : String)
    (id : Nat) (hc : c.txn.isSome) (h : insertUser env c a b u e p t d = .ok (id, c1)) :
    c1.committed = c.committed ∧ c1.txn.isSome := by
  unfold insertUser at h
  split at h
  · simp at h
  · split at h
    · simp at h
    · split at h
      · simp at h
      · split at h
        · simp at h
        · simp only [Except.ok.injEq, Prod.mk.injEq] at h
          obtain ⟨-, rfl⟩ := h
          simp [Conn.write_committed c _ hc]

theorem insertUser_error (env : Env) (c c1 : Conn) (a b u e p : String) (t : JsVal) (d : String)
    (m : String) (h : insertUser env c a b u e p t d = .error (m, c1)) :
    c1.committed = c.committed := by
  unfold insertUser at h
  split at h
  · simp only [Except.error.injEq, Prod.mk.injEq] at h
    rw [← h.2]
  · split at h
    · simp only [Except.error.injEq, Prod.mk.injEq] at h
      rw [← h.2]
      rfl
    · split at h
      · simp only [Except.error.injEq, Prod.mk.injEq] at h
        rw [← h.2]
      · split at h
        · simp only [Except.error.injEq, Prod.mk.injEq] at h
          rw [← h.2]
        · simp at h

theorem insertCompany_committed (env : Env) (c c1 : Conn) (n : String) (o : Nat) (d : String)
    (id : Nat) (hc : c.txn.isSome) (h : insertCompany env c n o d = .ok (id, c1)) :
    c1.committed = c.committed ∧ c1.txn.isSome := by
  unfold insertCompany at h
  split at h
  · simp at h
  · split at h
    · simp at h
    · split at h
      · simp at h
      · simp only [Except.ok.injEq, Prod.mk.injEq] at h
        obtain ⟨-, rfl⟩ := h
        simp [Conn.write_committed c _ hc]

theorem insertCompany_error (env : Env) (c c1 : Conn) (n : String) (o : Nat) (d : String)
    (m : String) (h : insertCompany env c n o d = .error (m, c1)) :
    c1.committed = c.committed := by
  unfold insertCompany at h
  split at h
  · simp only [Except.error.injEq, Prod.mk.injEq] at h
    rw [← h.2]
  · split at h
    · simp only [Except.error.injEq, Prod.mk.injEq] at h
      rw [← h.2]
      rfl
    · split at h
      · simp only [Except.error.injEq, Prod.mk.injEq] at h
        rw [← h.2]
      · simp at h

theorem insertRole_committed (env : Env) (c c1 : Conn) (u k : Nat) (r d : String)
    (hc : c.txn.isSome) (h : insertRole env c u k r d = .ok c1) :
    c1.committed = c.committed ∧ c1.txn.isSome := by
  unfold insertRole at h
  split at h
  · simp at h
  · split at h
    · simp at h
    · split at h
      · simp at h
      · split at h
        · simp at h
        · simp only [Except.ok.injEq] at h
          subst h
          simp [Conn.write_committed c _ hc]

theorem insertRole_error (env : Env) (c c1 : Conn) (u k : Nat) (r d : String)
    (m : String) (h : insertRole env c u k r d = .error (m, c1)) :
    c1.committed = c.committed := by
  unfold insertRole at h
  split at h
  · simp only [Except.error.injEq, Prod.mk.injEq] at h
    rw [← h.2]
  · split at h
    · simp only [Except.error.injEq, Prod.mk.injEq] at h
      rw [← h.2]
      rfl
    · split at h
      · simp only [Except.error.injEq, Prod.mk.injEq] at h
        rw [← h.2]
      · split at h
        · simp only [Except.error.injEq, Prod.mk.injEq] at h
          rw [← h.2]
        · simp at h

theorem Conn.begin_ok (f : Faults) (c c1 : Conn) (h : c.begin f = .ok c1) :
    c1.committed = c.committed ∧ c1.txn.isSome := by
  unfold Conn.begin at h
  split at h
  · simp at h
  · split at h
    · simp at h
    · simp only [Except.ok.injEq] at h
      subst h
      simp

theorem Conn.rollback_ok (f : Option String) (c c1 : Conn) (h : c.rollback f = .ok c1) :
    c1.committed = c.committed ∧ c1.txn = none := by
  unfold Conn.rollback at h
  split at h
  · simp at h
  · split at h
    · simp only [Except.ok.injEq] at h
      subst h
      simp
    · simp at h

theorem Conn.rollback_none (c : Conn) (h : c.txn.isSome) :
    c.rollback none = .ok { c with txn := none } := by
  unfold Conn.rollback
  cases hc : c.txn with
  | none => simp [hc] at h
  | some t => simp

theorem commitAndRespond_outcome (env : Env) (c : Conn) (u : Nat) (k : Option Nat) :
    (commitAndRespond env c u k).1 = .ok (created u k) ∨
    ∃ e, commitAndRespond env c u k = (.error e, c) := by
  unfold commitAndRespond
  cases Conn.commit env.faults c with
  | error e => exact Or.inr ⟨e, rfl⟩
  | ok c1 => exact Or.inl rfl

theorem transaction_outcome (env : Env) (store : Store) (a b u e p : String) (t : JsVal)
    (n : Option String) (d : String) :
    (∃ i k, (transaction env ⟨store, none⟩ a b u e p t n d).1 = .ok (created i k)) ∨
    ((transaction env ⟨store, none⟩ a b u e p t n d).1 = .ok companyNameTaken ∧
      (transaction env ⟨store, none⟩ a b u e p t n d).2.committed = store ∧
      (transaction env ⟨store, none⟩ a b u e p t n d).2.txn = none) ∨
    ((∃ m, (transaction env ⟨store, none⟩ a b u e p t n d).1 = .error m) ∧
      (transaction env ⟨store, none⟩ a b u e p t n d).2.committed = store) := by
  unfold transaction
  cases hb : Conn.begin env.faults ⟨store, none⟩ with
  | error m => simp
  | ok c1 =>
    obtain ⟨h1, h1t⟩ := Conn.begin_ok _ _ _ hb
    simp only [] at h1 ⊢
    cases hu : insertUser env c1 a b u e p t d with
    | error r =>
      obtain ⟨m, c2⟩ := r
      have h2 := insertUser_error _ _ _ _ _ _ _ _ _ _ _ hu
      simp [h2, h1]
    | ok r =>
      obtain ⟨userId, c2⟩ := r
      obtain ⟨h2, h2t⟩ := insertUser_committed _ _ _ _ _ _ _ _ _ _ _ h1t hu
      simp only []
      split
      · cases hs : selectCompany env c2 (text n) with
        | error m => simp [h2, h1]
        | ok found =>
          cases found with
          | some k =>
            simp only []
            cases hr : Conn.rollback env.faults.rollbackCompanyExists c2 with
            | error m => simp [h2, h1]
            | ok c3 =>
              obtain ⟨h3, h3t⟩ := Conn.rollback_ok _ _ _ hr
              simp [h3, h2, h1, h3t]
          | none =>
            simp only []
            cases hk : insertCompany env c2 (jsTrim (text n)) userId d with
            | error r =>
              obtain ⟨m, c3⟩ := r
              have h3 := insertCompany_error _ _ _ _ _ _ _ hk
              simp [h3, h2, h1]
            | ok r =>
              obtain ⟨companyId, c3⟩ := r
              obtain ⟨h3, h3t⟩ := insertCompany_committed _ _ _ _ _ _ _ h2t hk
              simp only []
              cases ho : insertRole env c3 userId companyId "owner" d with
              | error r =>
                obtain ⟨m, c4⟩ := r
                have h4 := insertRole_error _ _ _ _ _ _ _ _ ho
                simp [h4, h3, h2, h1]
              | ok c4 =>
                obtain ⟨h4, h4t⟩ := insertRole_committed _ _ _ _ _ _ _ h3t ho
                simp only []
                rcases commitAndRespond_outcome env c4 userId (some companyId) with hc | ⟨m, hc⟩
                · exact Or.inl ⟨_, _, hc⟩
                · simp [hc, h4, h3, h2, h1]
      · rcases commitAndRespond_outcome env c2 userId none with hc | ⟨m, hc⟩
        · exact Or.inl ⟨_, _, hc⟩
        · simp [hc, h2, h1]

theorem onDbError_outcome (env : Env) (c : Conn) (m : String) :
    (onDbError env c m).1.status ≠ 201 ∧ (onDbError env c m).2.committed = c.committed ∧
    (env.faults.rollbackCatch = none → (onDbError env c m).2.txn = none) := by
  unfold onDbError
  cases hr : Conn.rollback env.faults.rollbackCatch c with
  | error x =>
    refine ⟨by simp [internalError], rfl, fun hf => ?_⟩
    simp only []
    cases hc : c.txn with
    | none => rfl
    | some s =>
      rw [hf, Conn.rollback_none c (by simp [hc])] at hr
      simp at hr
  | ok c1 =>
    obtain ⟨h1, h1t⟩ := Conn.rollback_ok _ _ _ hr
    simp only []
    split
    · exact ⟨by simp [emailTaken], h1, fun _ => h1t⟩
    · split
      · exact ⟨by simp [usernameTaken], h1, fun _ => h1t⟩
      · exact ⟨by simp [databaseError], h1, fun _ => h1t⟩

theorem le_foldr_max (ids : List Nat) (x : Nat) (h : x ∈ ids) : x ≤ ids.foldr max 0 := by
  induction ids with
  | nil => simp at h
  | cons y ys ih =>
    simp only [List.mem_cons] at h
    simp only [List.foldr_cons]
    rcases h with rfl | h
    · exact le_max_left _ _
    · exact le_trans (ih h) (le_max_right _ _)

theorem lt_freshId (seq : Nat) (ids : List Nat) (x : Nat) (h : x ∈ ids) : x < freshId seq ids := by
  unfold freshId
  have := le_foldr_max ids x h
  omega

theorem uniqueUsers_none (env : Env) (s : Store) (e u : String)
    (he : ¬ s.HasEmail e) (hu : ¬ s.HasUsername u) : uniqueUsers env s e u = none := by
  have h1 : (s.users.any fun r => decide (r.email = e)) = false := by
    rw [Bool.eq_false_iff]
    intro h
    simp only [List.any_eq_true, decide_eq_true_eq] at h
    exact he h
  have h2 : (s.users.any fun r => decide (r.username = u)) = false := by
    rw [Bool.eq_false_iff]
    intro h
    simp only [List.any_eq_true, decide_eq_true_eq] at h
    exact hu h
  simp [uniqueUsers, h1, h2]

theorem uniqueUsers_taken (env : Env) (s : Store) (e u : String)
    (h : s.HasEmail e ∨ s.HasUsername u) :
    (uniqueUsers env s e u = some emailTakenError ∧ s.HasEmail e) ∨
    (uniqueUsers env s e u = some usernameTakenError ∧ s.HasUsername u) := by
  have h1 : (s.users.any fun r => decide (r.email = e)) = true ↔ s.HasEmail e := by
    simp [Store.HasEmail]
  have h2 : (s.users.any fun r => decide (r.username = u)) = true ↔ s.HasUsername u := by
    simp [Store.HasUsername]
  unfold uniqueUsers
  simp only []
  by_cases he : s.HasEmail e <;> by_cases hu : s.HasUsername u <;>
    cases hx : env.usernameIndexFirst <;> simp_all

theorem POST_valid (env : Env) (store : Store) (req : Request) (hv : req.Valid) :
    POST env store req =
      match transaction env ⟨store, none⟩ (text req.firstName) (text req.lastName)
        (text req.username) (text req.email) (env.hash (text req.password)) (.bool true)
        req.companyName env.createdAt with
      | (.ok response, c) => (response, c)
      | (.error message, c) => onDbError env c message := by
  obtain ⟨h1, h2, h3, h4, h5, h6, h7⟩ := hv
  unfold POST
  simp only [h1, h2, h3, h4, h5, h7]
  simp [JsVal.truthy, Nat.not_lt.mpr h6]

theorem insertUser_fresh (env : Env) (store : Store) (req : Request)
    (hf : env.faults.insertUser = none) (hroom : store.UserIdsLeft)
    (he : ¬ store.HasEmail (text req.email)) (hu : ¬ store.HasUsername (text req.username)) :
    insertUser env ⟨store, some store⟩ (text req.firstName) (text req.lastName)
      (text req.username) (text req.email) (env.hash (text req.password)) (.bool true)
      env.createdAt =
    .ok (freshId store.userSeq (store.users.map (·.id)),
      ⟨store, some { store with users := store.users ++ [newUser env store req],
                                 userSeq := freshId store.userSeq (store.users.map (·.id)) }⟩) := by
  have h := uniqueUsers_none env store _ _ he hu
  have hn := nextId_some _ _ hroom
  simp [insertUser, hf, termsColumn, Conn.view, h, hn, Conn.write, newUser]

theorem begin_fresh (env : Env) (store : Store) (hf : env.faults.begin = none) :
    Conn.begin env.faults ⟨store, none⟩ = .ok ⟨store, some store⟩ := by
  simp [Conn.begin, hf]

theorem commit_open (env : Env) (c : Conn) (s : Store) (hf : env.faults.commit = none)
    (hc : c.txn = some s) : Conn.commit env.faults c = .ok ⟨s, none⟩ := by
  simp [Conn.commit, hf, hc]

theorem POST_without_company (env : Env) (store : Store) (req : Request)
    (hv : req.Valid) (hf : env.faults = Faults.none) (hroom : store.UserIdsLeft)
    (he : ¬ store.HasEmail (text req.email)) (hu : ¬ store.HasUsername (text req.username))
    (hc : ¬ req.WantsCompany) :
    POST env store req =
      (created (newUser env store req).id none,
       ⟨{ store with users := store.users ++ [newUser env store req],
                     userSeq := (newUser env store req).id }, none⟩) := by
  have hi := insertUser_fresh env store req (by simp [hf, Faults.none]) hroom he hu
  have hb := begin_fresh env store (by simp [hf, Faults.none])
  unfold Request.WantsCompany at hc
  rw [POST_valid env store req hv]
  unfold transaction
  rw [hb]
  simp only []
  rw [hi]
  simp only [hc, if_false, commitAndRespond]
  rw [commit_open env _ _ (by simp [hf, Faults.none]) rfl]
  rfl

theorem selectCompany_none (env : Env) (store s : Store) (name : String)
    (hf : env.faults.selectCompany = none) (h : ¬ s.MatchesCompany name) :
    selectCompany env ⟨store, some s⟩ name = .ok none := by
  unfold selectCompany
  simp only [hf, Except.ok.injEq, Option.map_eq_none', List.find?_eq_none, decide_eq_true_eq]
  intro r hr hm
  exact h ⟨r, hr, hm⟩

theorem selectCompany_some (env : Env) (store s : Store) (name : String)
    (hf : env.faults.selectCompany = none) (h : s.MatchesCompany name) :
    ∃ k, selectCompany env ⟨store, some s⟩ name = .ok (some k) := by
  unfold selectCompany
  simp only [hf]
  cases hfind : (Conn.view ⟨store, some s⟩).companies.find?
      (fun r => sqlLower r.company_name = sqlLower name) with
  | some r => exact ⟨r.id, rfl⟩
  | none =>
    obtain ⟨r, hr, hm⟩ := h
    rw [List.find?_eq_none] at hfind
    simpa [hm] using hfind r hr

theorem insertCompany_fresh (env : Env) (store s : Store) (name : String) (owner : Nat)
    (d : String) (hf : env.faults.insertCompany = none) (hroom : s.CompanyIdsLeft)
    (h : ¬ s.HasCompanyName name) :
    insertCompany env ⟨store, some s⟩ name owner d =
    .ok (freshId s.companySeq (s.companies.map (·.id)),
      ⟨store, some { s with
        companies := s.companies ++
          [⟨freshId s.companySeq (s.companies.map (·.id)), name, owner, d, none, none⟩],
        companySeq := freshId s.companySeq (s.companies.map (·.id)) }⟩) := by
  have h1 : (s.companies.any fun r => decide (r.company_name = name)) = false := by
    rw [Bool.eq_false_iff]
    intro hx
    simp only [List.any_eq_true, decide_eq_true_eq] at hx
    exact h hx
  have hn := nextId_some _ _ hroom
  simp [insertCompany, hf, Conn.view, h1, hn, Conn.write]

theorem insertRole_fresh (env : Env) (store s : Store) (userId companyId : Nat)
    (d : String) (hf : env.faults.insertRole = none) (hroom : s.RoleIdsLeft)
    (h : ∀ r ∈ s.roles, ¬ (r.user_id = userId ∧ r.company_id = companyId)) :
    insertRole env ⟨store, some s⟩ userId companyId "owner" d =
    .ok ⟨store, some { s with
        roles := s.roles ++
          [⟨freshId s.roleSeq (s.roles.map (·.id)), userId, companyId, "owner", d⟩],
        roleSeq := freshId s.roleSeq (s.roles.map (·.id)) }⟩ := by
  have h1 : (s.roles.any fun r => decide (r.user_id = userId ∧ r.company_id = companyId))
      = false := by
    rw [Bool.eq_false_iff]
    intro hx
    simp only [List.any_eq_true, decide_eq_true_eq] at hx
    obtain ⟨r, hr, hp⟩ := hx
    exact h r hr hp
  have hn := nextId_some _ _ hroom
  simp only [insertRole, hf, Conn.view, Option.getD_some, h1, hn, Conn.write]
  simp

theorem roles_not_next_user (store : Store) (h : store.RolesReferUsers) :
    ∀ r ∈ store.roles, r.user_id ≠ freshId store.userSeq (store.users.map (·.id)) := by
  intro r hr
  obtain ⟨u, hu, hid⟩ := h r hr
  have := lt_freshId store.userSeq (store.users.map (·.id)) u.id (List.mem_map_of_mem _ hu)
  omega

theorem nextPairFree_of_rolesReferUsers (store : Store) (h : store.RolesReferUsers) :
    store.NextPairFree :=
  fun r hr hp => roles_not_next_user store h r hr hp.1

theorem POST_with_company (env : Env) (store : Store) (req : Request)
    (hv : req.Valid) (hf : env.faults = Faults.none)
    (he : ¬ store.HasEmail (text req.email)) (hu : ¬ store.HasUsername (text req.username))
    (hc : req.WantsCompany)
    (hm : ¬ store.MatchesCompany (text req.companyName))
    (hn : ¬ store.HasCompanyName (jsTrim (text req.companyName)))
    (hr : store.NextPairFree)
    (hroom : store.UserIdsLeft) (hroomc : store.CompanyIdsLeft) (hroomr : store.RoleIdsLeft) :
    POST env store req =
      (created (newUser env store req).id (some (newCompany env store req).id),
       ⟨{ users := store.users ++ [newUser env store req],
          companies := store.companies ++ [newCompany env store req],
          roles := store.roles ++ [newRole env store],
          userSeq := (newUser env store req).id,
          companySeq := (newCompany env store req).id,
          roleSeq := (newRole env store).id }, none⟩) := by
  have hi := insertUser_fresh env store req (by simp [hf, Faults.none]) hroom he hu
  have hb := begin_fresh env store (by simp [hf, Faults.none])
  have hs : selectCompany env ⟨store, some { store with
      users := store.users ++ [newUser env store req],
      userSeq := freshId store.userSeq (store.users.map (·.id)) }⟩ (text req.companyName)
      = .ok none :=
    selectCompany_none env store _ _ (by simp [hf, Faults.none]) hm
  have hk := insertCompany_fresh env store { store with
      users := store.users ++ [newUser env store req],
      userSeq := freshId store.userSeq (store.users.map (·.id)) }
      (jsTrim (text req.companyName)) (freshId store.userSeq (store.users.map (·.id)))
      env.createdAt (by simp [hf, Faults.none]) hroomc hn
  have ho := insertRole_fresh env store { store with
      users := store.users ++ [newUser env store req],
      companies := store.companies ++ [newCompany env store req],
      userSeq := freshId store.userSeq (store.users.map (·.id)),
      companySeq := freshId store.companySeq (store.companies.map (·.id)) }
      (freshId store.userSeq (store.users.map (·.id)))
      (freshId store.companySeq (store.companies.map (·.id)))
      env.createdAt (by simp [hf, Faults.none]) hroomr (fun r hx hp => hr r hx hp)
  unfold Request.WantsCompany at hc
  rw [POST_valid env store req hv]
  unfold transaction
  rw [hb]
  simp only []
  rw [hi]
  simp only [hc, and_self, if_true, not_false_eq_true, ne_eq]
  rw [hs]
  simp only []
  rw [hk]
  simp only []
  erw [ho]
  simp only [commitAndRespond]
  rw [commit_open env _ _ (by simp [hf, Faults.none]) rfl]
  rfl

theorem truthy_of_not_missing (f : Option String) (h : ¬ Missing f) : truthy f = true := by
  unfold Missing at h
  cases f with
  | none => simp at h
  | some s =>
    simp only [Option.some.injEq, false_or, reduceCtorEq] at h
    simp [truthy, h]

theorem not_truthy_of_missing (f : Option String) (h : Missing f) : truthy f = false := by
  rcases h with rfl | rfl <;> simp [truthy]

theorem freshId_ne_zero (seq : Nat) (ids : List Nat) : freshId seq ids ≠ 0 := by
  unfold freshId
  omega

theorem POST_company_match (env : Env) (store : Store) (req : Request)
    (hv : req.Valid) (hf : env.faults = Faults.none) (hroom : store.UserIdsLeft)
    (he : ¬ store.HasEmail (text req.email)) (hu : ¬ store.HasUsername (text req.username))
    (hc : req.WantsCompany) (hm : store.MatchesCompany (text req.companyName)) :
    POST env store req = (companyNameTaken, ⟨store, none⟩) := by
  have hi := insertUser_fresh env store req (by simp [hf, Faults.none]) hroom he hu
  have hb := begin_fresh env store (by simp [hf, Faults.none])
  obtain ⟨k, hs⟩ := selectCompany_some env store { store with
      users := store.users ++ [newUser env store req],
      userSeq := freshId store.userSeq (store.users.map (·.id)) } (text req.companyName)
      (by simp [hf, Faults.none]) hm
  unfold Request.WantsCompany at hc
  rw [POST_valid env store req hv]
  unfold transaction
  rw [hb]
  simp only []
  rw [hi]
  simp only [hc, and_self, if_true, not_false_eq_true, ne_eq]
  rw [hs]
  simp [Conn.rollback, hf, Faults.none]

theorem POST_duplicate_user (env : Env) (store : Store) (req : Request)
    (hv : req.Valid) (hf : env.faults = Faults.none) (hroom : store.UserIdsLeft)
    (hd : store.HasEmail (text req.email) ∨ store.HasUsername (text req.username)) :
    (POST env store req = (emailTaken, ⟨store, none⟩) ∧ store.HasEmail (text req.email)) ∨
    (POST env store req = (usernameTaken, ⟨store, none⟩) ∧
      store.HasUsername (text req.username)) := by
  have hb := begin_fresh env store (by simp [hf, Faults.none])
  have hn := nextId_some _ _ hroom
  have h1 : jsIncludes emailTakenError
      "SQLITE_CONSTRAINT: UNIQUE constraint failed: users.email" = true := by decide
  have h2 : jsIncludes usernameTakenError
      "SQLITE_CONSTRAINT: UNIQUE constraint failed: users.email" = false := by decide
  have h3 : jsIncludes usernameTakenError
      "SQLITE_CONSTRAINT: UNIQUE constraint failed: users.username" = true := by decide
  rw [POST_valid env store req hv]
  unfold transaction
  rw [hb]
  simp only []
  rcases uniqueUsers_taken env store _ _ hd with ⟨hx, hy⟩ | ⟨hx, hy⟩
  · left
    refine ⟨?_, hy⟩
    simp [insertUser, hf, Faults.none, termsColumn, Conn.view, hx, hn, onDbError, Conn.rollback, h1]
  · right
    refine ⟨?_, hy⟩
    simp [insertUser, hf, Faults.none, termsColumn, Conn.view, hx, hn, onDbError, Conn.rollback, h2, h3]

theorem selectUser_none (store : Store) (i : String)
    (h : ∀ u ∈ store.users, sqlLower u.email ≠ sqlLower i ∧ sqlLower u.username ≠ sqlLower i) :
    Login.selectUser store i = none := by
  unfold Login.selectUser
  rw [List.find?_eq_none]
  intro u hu
  have := h u hu
  simp [this.1, this.2]

theorem selectUser_first (store : Store) (i : String) (pre post : List UserRow) (u : UserRow)
    (hs : store.users = pre ++ u :: post)
    (hpre : ∀ v ∈ pre, sqlLower v.email ≠ sqlLower i ∧ sqlLower v.username ≠ sqlLower i)
    (hu : sqlLower u.email = sqlLower i ∨ sqlLower u.username = sqlLower i) :
    Login.selectUser store i = some u := by
  unfold Login.selectUser
  rw [hs, List.find?_append]
  have h1 : List.find? (fun v => decide (sqlLower v.email = sqlLower i ∨
      sqlLower v.username = sqlLower i)) pre = none := by
    rw [List.find?_eq_none]
    intro v hv
    have := hpre v hv
    simp [this.1, this.2]
  rw [h1]
  simp [List.find?_cons, hu]

theorem selectUser_of_username (store : Store) (i : String)
    (h : store.HasUsername i) : ∃ u, Login.selectUser store i = some u := by
  unfold Login.selectUser
  cases hf : store.users.find? (fun u =>
      decide (sqlLower u.email = sqlLower i ∨ sqlLower u.username = sqlLower i)) with
  | some u => exact ⟨u, rfl⟩
  | none =>
    obtain ⟨u, hu, he⟩ := h
    rw [List.find?_eq_none] at hf
    have := hf u hu
    simp [he] at this

theorem userIdsLeft_of_exact (store : Store) (h : store.UserIdExact) : store.UserIdsLeft := by
  unfold Store.UserIdExact exactLimit at h
  unfold Store.UserIdsLeft maxRowid
  omega

theorem companyIdsLeft_of_exact (store : Store) (h : store.CompanyIdExact) :
    store.CompanyIdsLeft := by
  unfold Store.CompanyIdExact exactLimit at h
  unfold Store.CompanyIdsLeft maxRowid
  omega

/-! ## Effect of a register call and invariants of reachable stores -/

theorem begin_inv (f : Faults) (store : Store) (c1 : Conn)
    (h : Conn.begin f ⟨store, none⟩ = .ok c1) : c1 = ⟨store, some store⟩ := by
  unfold Conn.begin at h
  split at h
  · simp at h
  · simp only [Except.ok.injEq] at h
    exact h.symm

theorem uniqueUsers_none_inv (env : Env) (s : Store) (e u : String)
    (h : uniqueUsers env s e u = none) : ¬ s.HasEmail e ∧ ¬ s.HasUsername u := by
  by_contra hc
  have hd : s.HasEmail e ∨ s.HasUsername u := by
    by_contra hn
    exact hc ⟨fun x => hn (Or.inl x), fun x => hn (Or.inr x)⟩
  rcases uniqueUsers_taken env s e u hd with ⟨hx, -⟩ | ⟨hx, -⟩ <;> simp [h] at hx

theorem insertUser_inv (env : Env) (store s : Store) (a b u e p : String) (t : JsVal)
    (d : String) (id : Nat) (c1 : Conn)
    (h : insertUser env ⟨store, some s⟩ a b u e p t d = .ok (id, c1)) :
    ∃ terms, uniqueUsers env s e u = none ∧ id = freshId s.userSeq (s.users.map (·.id)) ∧
      c1 = ⟨store, some { s with
        users := s.users ++ [⟨id, e, p, a, b, u, d, none, none, terms⟩], userSeq := id }⟩ := by
  unfold insertUser at h
  split at h
  · simp at h
  · split at h
    · simp at h
    · rename_i id0 hnext
      split at h
      · simp at h
      · rename_i terms _
        split at h
        · simp at h
        · rename_i hun
          simp only [Except.ok.injEq, Prod.mk.injEq, Conn.view, Option.getD_some,
            Conn.write] at h hun hnext
          obtain ⟨h1, h2⟩ := h
          subst h1
          exact ⟨terms, hun, (nextId_inv _ _ _ hnext).1, h2.symm⟩

theorem insertCompany_inv (env : Env) (store s : Store) (name : String) (owner : Nat)
    (d : String) (id : Nat) (c1 : Conn)
    (h : insertCompany env ⟨store, some s⟩ name owner d = .ok (id, c1)) :
    ¬ s.HasCompanyName name ∧ id = freshId s.companySeq (s.companies.map (·.id)) ∧
      c1 = ⟨store, some { s with
        companies := s.companies ++ [⟨id, name, owner, d, none, none⟩], companySeq := id }⟩ := by
  unfold insertCompany at h
  split at h
  · simp at h
  · split at h
    · simp at h
    · rename_i id0 hnext
      split at h
      · simp at h
      · rename_i hany
        simp only [Except.ok.injEq, Prod.mk.injEq, Conn.view, Option.getD_some,
          Conn.write] at h hany hnext
        obtain ⟨h1, h2⟩ := h
        subst h1
        refine ⟨?_, (nextId_inv _ _ _ hnext).1, h2.symm⟩
        rintro ⟨r, hr, hn⟩
        exact hany (List.any_eq_true.mpr ⟨r, hr, by simp [hn]⟩)

theorem insertRole_inv (env : Env) (store s : Store) (userId companyId : Nat)
    (d : String) (c1 : Conn)
    (h : insertRole env ⟨store, some s⟩ userId companyId "owner" d = .ok c1) :
    (∀ x ∈ s.roles, ¬ (x.user_id = userId ∧ x.company_id = companyId)) ∧
      c1 = ⟨store, some { s with
        roles := s.roles ++
          [⟨freshId s.roleSeq (s.roles.map (·.id)), userId, companyId, "owner", d⟩],
        roleSeq := freshId s.roleSeq (s.roles.map (·.id)) }⟩ := by
  unfold insertRole at h
  split at h
  · simp at h
  · split at h
    · simp at h
    · rename_i id0 hnext
      split at h
      · simp at h
      · split at h
        · simp at h
        · rename_i hany
          simp only [Except.ok.injEq, Conn.view, Option.getD_some, Conn.write] at h hany hnext
          rw [(nextId_inv _ _ _ hnext).1] at h
          refine ⟨?_, h.symm⟩
          intro x hx hp
          exact hany (List.any_eq_true.mpr ⟨x, hx, by simp [hp.1, hp.2]⟩)

theorem commitAndRespond_open (env : Env) (store s : Store) (u : Nat) (k : Option Nat) :
    commitAndRespond env ⟨store, some s⟩ u k = (.ok (created u k), ⟨s, none⟩) ∨
    ∃ e, commitAndRespond env ⟨store, some s⟩ u k = (.error e, ⟨store, some s⟩) := by
  unfold commitAndRespond Conn.commit
  cases env.faults.commit with
  | some m => exact Or.inr ⟨m, rfl⟩
  | none => exact Or.inl rfl

theorem transaction_effect (env : Env) (store : Store) (a b u e p : String) (t : JsVal)
    (n : Option String) (d : String) :
    ((transaction env ⟨store, none⟩ a b u e p t n d).2.committed = store ∧
      ∀ resp, (transaction env ⟨store, none⟩ a b u e p t n d).1 = .ok resp →
        resp.status ≠ 201) ∨
    ∃ resp s, transaction env ⟨store, none⟩ a b u e p t n d = (.ok resp, ⟨s, none⟩) ∧
      Created store e u p resp s := by
  unfold transaction
  cases hb : Conn.begin env.faults ⟨store, none⟩ with
  | error m => simp
  | ok c1 =>
    have := begin_inv _ _ _ hb
    subst this
    simp only []
    cases hu : insertUser env ⟨store, some store⟩ a b u e p t d with
    | error r =>
      obtain ⟨m, c2⟩ := r
      have h2 := insertUser_error _ _ _ _ _ _ _ _ _ _ _ hu
      simp [h2]
    | ok r =>
      obtain ⟨userId, c2⟩ := r
      obtain ⟨terms, hun, hid, hc2⟩ := insertUser_inv _ _ _ _ _ _ _ _ _ _ _ _ hu
      obtain ⟨hne, hnu⟩ := uniqueUsers_none_inv _ _ _ _ hun
      subst hc2
      simp only []
      split
      · cases hs : selectCompany env _ (text n) with
        | error m => simp
        | ok found =>
          cases found with
          | some k =>
            simp only []
            cases hr : Conn.rollback env.faults.rollbackCompanyExists _ with
            | error m => simp
            | ok c3 =>
              obtain ⟨h3, -⟩ := Conn.rollback_ok _ _ _ hr
              simp [h3, companyNameTaken]
          | none =>
            simp only []
            cases hk : insertCompany env _ (jsTrim (text n)) userId d with
            | error r =>
              obtain ⟨m, c3⟩ := r
              have h3 := insertCompany_error _ _ _ _ _ _ _ hk
              simp [h3]
            | ok r =>
              obtain ⟨companyId, c3⟩ := r
              obtain ⟨-, hcid, hc3⟩ := insertCompany_inv _ _ _ _ _ _ _ _ hk
              subst hc3
              simp only []
              cases ho : insertRole env _ userId companyId "owner" d with
              | error r =>
                obtain ⟨m, c4⟩ := r
                have h4 := insertRole_error _ _ _ _ _ _ _ _ ho
                simp [h4]
              | ok c4 =>
                obtain ⟨-, hc4⟩ := insertRole_inv _ _ _ _ _ _ _ ho
                subst hc4
                simp only []
                rcases commitAndRespond_open env store _ userId (some companyId)
                  with hc | ⟨m, hc⟩
                · right
                  rw [hc]
                  exact ⟨_, _, rfl, Created.company
                    ⟨userId, e, p, a, b, u, d, none, none, terms⟩
                    ⟨companyId, jsTrim (text n), userId, d, none, none⟩
                    ⟨_, userId, companyId, "owner", d⟩
                    hid rfl rfl rfl hne hnu hcid rfl rfl rfl rfl⟩
                · rw [hc]
                  simp
      · rcases commitAndRespond_open env store _ userId none with hc | ⟨m, hc⟩
        · right
          rw [hc]
          exact ⟨_, _, rfl, Created.user ⟨userId, e, p, a, b, u, d, none, none, terms⟩
            hid rfl rfl rfl hne hnu⟩
        · rw [hc]
          simp

theorem POST_effect (env : Env) (store : Store) (req : Request) :
    ((POST env store req).1.status ≠ 201 ∧ storeAfter env store req = store) ∨
    (¬ Missing req.email ∧ ¬ Missing req.username ∧ ¬ Missing req.password ∧
      Created store (text req.email) (text req.username) (env.hash (text req.password))
        (POST env store req).1 (storeAfter env store req)) := by
  unfold storeAfter POST
  simp only []
  split
  · left
    simp [missingField]
  · split
    · left
      simp [weakPassword]
    · split
      · left
        simp [termsNotAccepted]
      · rename_i h1 h2 h3
        have hout := transaction_effect env store (text req.firstName) (text req.lastName)
          (text req.username) (text req.email) (env.hash (text req.password)) req.termsAccepted
          req.companyName env.createdAt
        generalize transaction env ⟨store, none⟩ (text req.firstName) (text req.lastName)
          (text req.username) (text req.email) (env.hash (text req.password)) req.termsAccepted
          req.companyName env.createdAt = out at hout ⊢
        rcases hout with ⟨hs, hr⟩ | ⟨resp, s, ho, hcr⟩
        · left
          obtain ⟨r, c⟩ := out
          cases r with
          | error m =>
            obtain ⟨g1, g2, -⟩ := onDbError_outcome env c m
            exact ⟨g1, g2.trans hs⟩
          | ok resp => exact ⟨hr resp rfl, hs⟩
        · right
          subst ho
          refine ⟨?_, ?_, ?_, hcr⟩
          · intro hm
            exact h1 (Or.inr (Or.inr (Or.inr (Or.inl (by simp [not_truthy_of_missing _ hm])))))
          · intro hm
            exact h1 (Or.inr (Or.inr (Or.inl (by simp [not_truthy_of_missing _ hm]))))
          · intro hm
            exact h1 (Or.inr (Or.inr (Or.inr (Or.inr (Or.inl
              (by simp [not_truthy_of_missing _ hm]))))))

theorem roleCount_plusUser (s : Store) (u : UserRow) (x k : Nat) :
    (s.plusUser u).roleCount x k = s.roleCount x k := rfl

theorem roleCount_plusCompany (s : Store) (u : UserRow) (c : CompanyRow) (r : RoleRow)
    (x k : Nat) :
    (s.plusCompany u c r).roleCount x k =
      s.roleCount x k + (if r.user_id = x ∧ r.company_id = k then 1 else 0) := by
  unfold Store.roleCount Store.plusCompany
  simp only [List.filter_append, List.length_append]
  by_cases h : r.user_id = x ∧ r.company_id = k
  · simp [List.filter_cons, h]
  · simp [List.filter_cons, h]

theorem roleCount_eq_zero (s : Store) (x k : Nat) (h : ∀ r ∈ s.roles, r.user_id ≠ x) :
    s.roleCount x k = 0 := by
  unfold Store.roleCount
  rw [List.length_eq_zero, List.filter_eq_nil_iff]
  intro r hr
  simp [h r hr]

theorem Linked_empty : Store.empty.Linked :=
  ⟨by simp [Store.empty], by simp [Store.empty], by simp [Store.empty],
    by simp [Store.RolesReferUsers, Store.empty], by simp [Store.roleCount, Store.empty]⟩

theorem Linked_plusUser (s : Store) (u : UserRow) (h : s.Linked) : (s.plusUser u).Linked := by
  refine ⟨?_, h.owner_role, h.owner_named, ?_, h.pair_unique⟩
  · intro c hc
    obtain ⟨v, hv, hid⟩ := h.owner_exists c hc
    exact ⟨v, List.mem_append_left _ hv, hid⟩
  · intro r hr
    obtain ⟨v, hv, hid⟩ := h.roles_refer r hr
    exact ⟨v, List.mem_append_left _ hv, hid⟩

theorem Linked_plusCompany (s : Store) (u : UserRow) (c : CompanyRow) (r : RoleRow)
    (h : s.Linked) (hu : u.id = freshId s.userSeq (s.users.map (·.id)))
    (hc : c.owner_user_id = u.id) (hru : r.user_id = u.id) (hrc : r.company_id = c.id)
    (hrole : r.role = "owner") : (s.plusCompany u c r).Linked := by
  have hfresh : ∀ v ∈ s.users, v.id ≠ u.id := by
    intro v hv
    have := lt_freshId s.userSeq (s.users.map (·.id)) v.id (List.mem_map_of_mem _ hv)
    omega
  have hroles : ∀ x ∈ s.roles, x.user_id ≠ u.id := by
    intro x hx
    obtain ⟨v, hv, hid⟩ := h.roles_refer x hx
    rw [← hid]
    exact hfresh v hv
  have howner : ∀ k ∈ s.companies, k.owner_user_id ≠ u.id := by
    intro k hk
    obtain ⟨v, hv, hid⟩ := h.owner_exists k hk
    rw [← hid]
    exact hfresh v hv
  refine ⟨?_, ?_, ?_, ?_, ?_⟩
  · intro k hk
    rcases List.mem_append.mp hk with hk | hk
    · obtain ⟨v, hv, hid⟩ := h.owner_exists k hk
      exact ⟨v, List.mem_append_left _ hv, hid⟩
    · simp only [List.mem_singleton] at hk
      subst hk
      exact ⟨u, List.mem_append_right _ (List.mem_singleton.mpr rfl), hc.symm⟩
  · intro k hk
    rw [roleCount_plusCompany]
    rcases List.mem_append.mp hk with hk | hk
    · have hne : ¬ (r.user_id = k.owner_user_id ∧ r.company_id = k.id) := by
        intro hp
        exact howner k hk (hp.1.symm.trans hru)
      simp only [hne, if_false, Nat.add_zero]
      exact h.owner_role k hk
    · simp only [List.mem_singleton] at hk
      subst hk
      rw [hc, roleCount_eq_zero s u.id k.id hroles]
      simp [hru, hrc]
  · intro k hk x hx hxu hxk
    rcases List.mem_append.mp hx with hx1 | hx1
    · rcases List.mem_append.mp hk with hk1 | hk1
      · exact h.owner_named k hk1 x hx1 hxu hxk
      · simp only [List.mem_singleton] at hk1
        rw [hk1] at hxu
        exact absurd (hxu.trans hc) (hroles x hx1)
    · simp only [List.mem_singleton] at hx1
      rw [hx1]
      exact hrole
  · intro x hx
    rcases List.mem_append.mp hx with hx | hx
    · obtain ⟨v, hv, hid⟩ := h.roles_refer x hx
      exact ⟨v, List.mem_append_left _ hv, hid⟩
    · simp only [List.mem_singleton] at hx
      subst hx
      exact ⟨u, List.mem_append_right _ (List.mem_singleton.mpr rfl), hru.symm⟩
  · intro x k
    rw [roleCount_plusCompany]
    by_cases hx : x = u.id
    · subst hx
      rw [roleCount_eq_zero s u.id k hroles]
      split <;> omega
    · have hne : ¬ (r.user_id = x ∧ r.company_id = k) := by
        intro hp
        exact hx (hp.1.symm.trans hru)
      simp only [hne, if_false, Nat.add_zero]
      exact h.pair_unique x k

theorem Linked_of_created (store s : Store) (e n p : String) (resp : Response)
    (hc : Created store e n p resp s) (h : store.Linked) : s.Linked := by
  cases hc with
  | user u => exact Linked_plusUser _ u h
  | company u c r hu _ _ _ _ _ _ hc hru hrc hrole =>
    exact Linked_plusCompany _ u c r h hu hc hru hrc hrole

theorem Linked_of_reachable (s : Store) (h : Reachable s) : s.Linked := by
  induction h with
  | empty => exact Linked_empty
  | register env req hs ih =>
    rcases POST_effect env _ req with ⟨-, he⟩ | ⟨-, -, -, hc⟩
    · rw [he]
      exact ih
    · exact Linked_of_created _ _ _ _ _ _ hc ih

theorem selectUser_mem (store : Store) (i : String) (u : UserRow)
    (h : Login.selectUser store i = some u) : u ∈ store.users := by
  unfold Login.selectUser at h
  exact List.mem_of_find?_eq_some h

theorem selectUser_withSecrets (store : Store)
    (secrets : UserRow → String × Option String × Option String) (i : String) :
    Login.selectUser (store.withSecrets secrets) i =
      (Login.selectUser store i).map (fun u =>
        { u with password := (secrets u).1, reset_token := (secrets u).2.1,
                 reset_token_expires_at := (secrets u).2.2 }) := by
  unfold Login.selectUser Store.withSecrets
  simp only [List.find?_map]
  rfl

theorem login_success_inv (compare : String → String → Bool) (store : Store)
    (i p : Option String) (h : (Login.POST compare store i p).status = 200) :
    ∃ u, Login.selectUser store (text i) = some u ∧
      Login.POST compare store i p =
        ⟨200, .success "Login successful."
          { id := u.id, email := u.email, username := u.username,
            firstName := u.first_name, lastName := u.last_name }⟩ := by
  unfold Login.POST at h ⊢
  split at h
  · simp at h
  · rename_i hv
    simp only [hv, if_false]
    cases hs : Login.selectUser store (text i) with
    | none => simp [hs] at h
    | some u =>
      simp only [hs] at h ⊢
      split at h
      · simp at h
      · rename_i hc
        simp [hc]

theorem created_users (store s : Store) (e n p : String) (resp : Response)
    (h : Created store e n p resp s) :
    ∃ u : UserRow, s.users = store.users ++ [u] ∧ u.email = e ∧ u.username = n ∧
      u.password = p ∧ ¬ store.HasEmail e ∧ ¬ store.HasUsername n ∧
      ∃ k, resp = created u.id k := by
  cases h with
  | user u hid he hn hp hne hnn => exact ⟨u, rfl, he, hn, hp, hne, hnn, none, rfl⟩
  | company u c r hid he hn hp hne hnn => exact ⟨u, rfl, he, hn, hp, hne, hnn, some c.id, rfl⟩

theorem login_after_created (compare : String → String → Bool) (store s : Store)
    (u : UserRow) (i p : Option String) (hs : s.users = store.users ++ [u])
    (hi : ¬ Missing i) (hp : ¬ Missing p)
    (hm : sqlLower u.email = sqlLower (text i) ∨ sqlLower u.username = sqlLower (text i))
    (hfree : ¬ store.Matches (text i))
    (hc : compare (text p) u.password = true) :
    Login.POST compare s i p =
      ⟨200, .success "Login successful."
        { id := u.id, email := u.email, username := u.username,
          firstName := u.first_name, lastName := u.last_name }⟩ := by
  have hpre : ∀ v ∈ store.users,
      sqlLower v.email ≠ sqlLower (text i) ∧ sqlLower v.username ≠ sqlLower (text i) := by
    intro v hv
    exact ⟨fun h => hfree ⟨v, hv, Or.inl h⟩, fun h => hfree ⟨v, hv, Or.inr h⟩⟩
  have hsel := selectUser_first s (text i) store.users [] u hs hpre hm
  simp [Login.POST, truthy_of_not_missing _ hi, truthy_of_not_missing _ hp, hsel, hc]

theorem exact_unique_of_created (store s : Store) (e n p : String) (resp : Response)
    (hc : Created store e n p resp s)
    (h : (store.users.map (·.email)).Nodup ∧ (store.users.map (·.username)).Nodup) :
    (s.users.map (·.email)).Nodup ∧ (s.users.map (·.username)).Nodup := by
  obtain ⟨u, hs, he, hn, -, hne, hnn, -⟩ := created_users _ _ _ _ _ _ hc
  rw [hs]
  simp only [List.map_append, List.map_cons, List.map_nil]
  refine ⟨List.Nodup.append h.1 (List.nodup_singleton _) ?_,
    List.Nodup.append h.2 (List.nodup_singleton _) ?_⟩
  · rw [List.disjoint_singleton]
    intro hm
    obtain ⟨v, hv, hve⟩ := List.mem_map.mp hm
    exact hne ⟨v, hv, hve.trans he⟩
  · rw [List.disjoint_singleton]
    intro hm
    obtain ⟨v, hv, hvn⟩ := List.mem_map.mp hm
    exact hnn ⟨v, hv, hvn.trans hn⟩

theorem exact_unique_of_reachable (s : Store) (h : Reachable s) :
    (s.users.map (·.email)).Nodup ∧ (s.users.map (·.username)).Nodup := by
  induction h with
  | empty => simp [Store.empty]
  | register env req hs ih =>
    rcases POST_effect env _ req with ⟨-, he⟩ | ⟨-, -, -, hc⟩
    · rw [he]
      exact ih
    · exact exact_unique_of_created _ _ _ _ _ _ hc ih

/-! ## C1: Atomicity of register -/

/-- Claim C1: whenever register answers with a status other than 201, the store
other connections see after the call is the store before the call, so no user,
company or role row of the attempt remains; and unless the final ROLLBACK itself
fails, no transaction is left open. Storage failures may be injected at every
statement. -/
theorem register_failure_leaves_store_unchanged (env : Env) (store : Store) (req : Request)
    (h : (POST env store req).1.status ≠ 201) :
    storeAfter env store req = store ∧
    (env.faults.rollbackCatch = none → (POST env store req).2.txn = none) := by
  unfold storeAfter
  unfold POST at h ⊢
  simp only [] at h ⊢
  split
  · simp
  · split
    · simp
    · split
      · simp
      · rename_i h1 h2 h3
        simp only [h1, h2, h3, if_false] at h
        have hout := transaction_outcome env store (text req.firstName) (text req.lastName)
          (text req.username) (text req.email) (env.hash (text req.password)) req.termsAccepted
          req.companyName env.createdAt
        generalize transaction env ⟨store, none⟩ (text req.firstName) (text req.lastName)
          (text req.username) (text req.email) (env.hash (text req.password)) req.termsAccepted
          req.companyName env.createdAt = out at h hout ⊢
        obtain ⟨r, c⟩ := out
        cases r with
        | error m =>
          simp only [] at hout ⊢
          obtain ⟨-, h5, h6⟩ := onDbError_outcome env c m
          rcases hout with ⟨i, k, hc⟩ | ⟨hc, -⟩ | ⟨-, hs⟩
          · simp at hc
          · simp at hc
          · exact ⟨h5.trans hs, h6⟩
        | ok resp =>
          simp only [] at hout h ⊢
          rcases hout with ⟨i, k, hc⟩ | ⟨-, hs, ht⟩ | ⟨⟨m, hc⟩, -⟩
          · simp only [Except.ok.injEq] at hc
            subst hc
            simp [created] at h
          · exact ⟨hs, fun _ => ht⟩
          · simp at hc

/-- Witness of C1: the insert into `user_company_roles` fails after the user and the
company were inserted; the answer is 500 and the store is as before. -/
theorem register_failure_leaves_store_unchanged_witness :
    (POST Example.envRoleFails Example.storeAna Example.dan).1.status = 500 ∧
    storeAfter Example.envRoleFails Example.storeAna Example.dan = Example.storeAna :=
  ⟨by decide,
    (register_failure_leaves_store_unchanged Example.envRoleFails Example.storeAna
      Example.dan (by decide)).1⟩

/-! ## C2: Registration with a new company -/

/-- Claim C2, as stated, fails: on a store holding a role row for the absent user 1
and company 1, the valid request of Dan, with a fresh email and username and a
company name matching no company, draws user id 1 and company id 1, the role insert
hits the unique index on (user_id, company_id) and the answer is 500; on the store
of Ana with the companies table out of rowids the answer is 500 as well. In both
cases the store is unchanged. -/
theorem register_with_company_blocked_by_stale_role :
    Example.dan.Valid ∧ Example.dan.WantsCompany ∧
    (¬ Example.storeStaleRole.HasEmail "dan@bits.io" ∧
      ¬ Example.storeStaleRole.HasUsername "dan" ∧
      ¬ Example.storeStaleRole.MatchesCompany "  Bits " ∧
      ¬ Example.storeStaleRole.MatchesCompany "Bits" ∧
      (POST Example.env Example.storeStaleRole Example.dan).1 = databaseError ∧
      storeAfter Example.env Example.storeStaleRole Example.dan = Example.storeStaleRole) ∧
    (¬ Example.storeAnaCompaniesFull.HasEmail "dan@bits.io" ∧
      ¬ Example.storeAnaCompaniesFull.HasUsername "dan" ∧
      ¬ Example.storeAnaCompaniesFull.MatchesCompany "  Bits " ∧
      ¬ Example.storeAnaCompaniesFull.MatchesCompany "Bits" ∧
      (POST Example.env Example.storeAnaCompaniesFull Example.dan).1 = internalError ∧
      storeAfter Example.env Example.storeAnaCompaniesFull Example.dan
        = Example.storeAnaCompaniesFull) := by
  unfold Request.Valid Request.WantsCompany Store.HasEmail Store.HasUsername
    Store.MatchesCompany
  decide

/-- Claim C2, as amended: on a store where no role row carries the pair of the ids
the new user and company receive, where these two ids are at most 2^53 and the roles
table has a rowid left, a valid request with a fresh email and username that asks
for a company whose name is not matched by the lookup and is not stored is answered
201 with userId and companyId; the store gains exactly one user row (id = userId),
one company row (id = companyId, trimmed name, owner = userId) and one role row
(userId, companyId, owner), each with an id above every existing one. -/
theorem register_with_company_inserts_user_company_owner (env : Env) (store : Store)
    (req : Request) (hv : req.Valid) (hf : env.faults = Faults.none)
    (he : ¬ store.HasEmail (text req.email)) (hu : ¬ store.HasUsername (text req.username))
    (hc : req.WantsCompany)
    (hm : ¬ store.MatchesCompany (text req.companyName))
    (hn : ¬ store.HasCompanyName (jsTrim (text req.companyName)))
    (hr : store.NextPairFree)
    (hxu : store.UserIdExact) (hxc : store.CompanyIdExact) (hxr : store.RoleIdsLeft) :
    (POST env store req).1 =
      ⟨201, .created "User registered successfully and company created."
        (newUser env store req).id (some (newCompany env store req).id)⟩ ∧
    (storeAfter env store req).users = store.users ++ [newUser env store req] ∧
    (storeAfter env store req).companies = store.companies ++ [newCompany env store req] ∧
    (storeAfter env store req).roles = store.roles ++ [newRole env store] ∧
    (newCompany env store req).company_name = jsTrim (text req.companyName) ∧
    (newCompany env store req).owner_user_id = (newUser env store req).id ∧
    (newRole env store).user_id = (newUser env store req).id ∧
    (newRole env store).company_id = (newCompany env store req).id ∧
    (newRole env store).role = "owner" ∧
    (∀ u ∈ store.users, u.id < (newUser env store req).id) ∧
    (∀ c ∈ store.companies, c.id < (newCompany env store req).id) ∧
    (∀ r ∈ store.roles, r.id < (newRole env store).id) := by
  have h := POST_with_company env store req hv hf he hu hc hm hn hr
    (userIdsLeft_of_exact store hxu) (companyIdsLeft_of_exact store hxc) hxr
  refine ⟨?_, ?_, ?_, ?_, rfl, rfl, rfl, rfl, rfl, ?_, ?_, ?_⟩
  · rw [h]
    simp [created, newCompany, freshId_ne_zero]
  · unfold storeAfter
    rw [h]
  · unfold storeAfter
    rw [h]
  · unfold storeAfter
    rw [h]
  · intro u hu
    exact lt_freshId _ _ _ (List.mem_map_of_mem _ hu)
  · intro c hc
    exact lt_freshId _ _ _ (List.mem_map_of_mem _ hc)
  · intro r hr
    exact lt_freshId _ _ _ (List.mem_map_of_mem _ hr)

/-- Witness of C2 as amended: Dan registers with the company "  Bits " after Ana. -/
theorem register_with_company_inserts_user_company_owner_witness :
    (POST Example.env Example.storeAna Example.dan).1 =
      ⟨201, .created "User registered successfully and company created." 2 (some 2)⟩ ∧
    (storeAfter Example.env Example.storeAna Example.dan).companies.map (·.company_name)
      = ["Acme", "Bits"] :=
  have h := register_with_company_inserts_user_company_owner Example.env Example.storeAna
    Example.dan (by unfold Request.Valid; decide) rfl
    (by unfold Store.HasEmail; decide) (by unfold Store.HasUsername; decide)
    (by unfold Request.WantsCompany; decide) (by unfold Store.MatchesCompany; decide)
    (by unfold Store.HasCompanyName; decide) (by unfold Store.NextPairFree; decide)
    (by unfold Store.UserIdExact; decide) (by unfold Store.CompanyIdExact; decide)
    (by unfold Store.RoleIdsLeft; decide)
  ⟨h.1.trans (by decide), by rw [h.2.2.1]; decide⟩

/-! ## C3: Registration without a company -/

/-- Claim C3, as stated, fails: on the empty store whose users table has used the
largest rowid, the valid request of Bob, with a fresh email and username and no
company name, finds no rowid left; the engine rolls the transaction back, the
ROLLBACK of the catch block fails and the answer is 500, with the store unchanged. -/
theorem register_without_company_fails_without_rowid :
    Example.bob.Valid ∧ ¬ Example.bob.WantsCompany ∧
    ¬ Example.storeUsersFull.HasEmail "a@b.com" ∧
    ¬ Example.storeUsersFull.HasUsername "bob" ∧
    Example.storeUsersFull.userSeq = 2 ^ 63 - 1 ∧
    (POST Example.env Example.storeUsersFull Example.bob).1 = internalError ∧
    (POST Example.env Example.storeUsersFull Example.bob).1.status = 500 ∧
    storeAfter Example.env Example.storeUsersFull Example.bob = Example.storeUsersFull := by
  unfold Request.Valid Request.WantsCompany Store.HasEmail Store.HasUsername
  decide

/-- Claim C3, as amended: on a store whose next user id is at most 2^53, a valid
request with a fresh email and username and a company name that is absent, empty or
blank after trimming is answered 201 with companyId null; the store gains exactly
one user row, with an id above every existing one, and the companies and roles
tables are unchanged. -/
theorem register_without_company_inserts_one_user (env : Env) (store : Store) (req : Request)
    (hv : req.Valid) (hf : env.faults = Faults.none)
    (he : ¬ store.HasEmail (text req.email)) (hu : ¬ store.HasUsername (text req.username))
    (hc : ¬ req.WantsCompany) (hxu : store.UserIdExact) :
    (POST env store req).1 =
      ⟨201, .created "User registered successfully." (newUser env store req).id none⟩ ∧
    storeAfter env store req =
      { store with users := store.users ++ [newUser env store req],
                   userSeq := (newUser env store req).id } ∧
    (storeAfter env store req).users = store.users ++ [newUser env store req] ∧
    (storeAfter env store req).companies = store.companies ∧
    (storeAfter env store req).roles = store.roles ∧
    (∀ u ∈ store.users, u.id < (newUser env store req).id) := by
  have h := POST_without_company env store req hv hf (userIdsLeft_of_exact store hxu) he hu hc
  refine ⟨?_, ?_, ?_, ?_, ?_, ?_⟩
  · rw [h]
    rfl
  · unfold storeAfter
    rw [h]
  · unfold storeAfter
    rw [h]
  · unfold storeAfter
    rw [h]
  · unfold storeAfter
    rw [h]
  · intro u hu
    exact lt_freshId _ _ _ (List.mem_map_of_mem _ hu)

/-- Witness of C3 as amended: Bob registers without a company after Ana. -/
theorem register_without_company_inserts_one_user_witness :
    (POST Example.env Example.storeAna Example.bob).1 =
      ⟨201, .created "User registered successfully." 2 none⟩ ∧
    (storeAfter Example.env Example.storeAna Example.bob).companies
      = Example.storeAna.companies :=
  have h := register_without_company_inserts_one_user Example.env Example.storeAna
    Example.bob (by unfold Request.Valid; decide) rfl
    (by unfold Store.HasEmail; decide) (by unfold Store.HasUsername; decide)
    (by unfold Request.WantsCompany; decide) (by unfold Store.UserIdExact; decide)
  ⟨h.1.trans (by decide), h.2.2.2.1⟩

/-! ## C4: Company name already taken -/

/-- Claim C4 fails on the code: with the company "Acme" stored, a request for the
company " acme" (trimmed: "acme") with a fresh email and username is answered 201,
and the store then holds the new user and a second company "acme". With the company
name "Acme " the answer is 500. -/
theorem register_untrimmed_company_lookup_admits_duplicate :
    Example.storeAna.companies.map (·.company_name) = ["Acme"] ∧
    sqlLower (jsTrim " acme") = sqlLower "Acme" ∧
    Example.carl.Valid ∧
    ¬ Example.storeAna.HasEmail "carl@c.com" ∧
    ¬ Example.storeAna.HasUsername "carl" ∧
    (POST Example.env Example.storeAna Example.carl).1.status = 201 ∧
    (storeAfter Example.env Example.storeAna Example.carl).users.map (·.username)
      = ["ana", "carl"] ∧
    (storeAfter Example.env Example.storeAna Example.carl).companies.map (·.company_name)
      = ["Acme", "acme"] ∧
    (POST Example.env Example.storeAna Example.carlTrailing).1
      = databaseError := by
  unfold Request.Valid Store.HasEmail Store.HasUsername
  decide

/-! ## C5: Duplicate email or username -/

/-- Claim C5, as stated, fails: on the store of Ana whose users table has used the
largest rowid, a valid second registration with the email of Ana and another
username finds no rowid left before the unique indexes are tested; the answer is
500, not 409. The store is unchanged. -/
theorem register_duplicate_email_without_rowid :
    Example.anaAgain.Valid ∧
    Example.storeAnaUsersFull.HasEmail "A@B.com" ∧
    ¬ Example.storeAnaUsersFull.HasUsername "ana2" ∧
    Example.storeAnaUsersFull.userSeq = 2 ^ 63 - 1 ∧
    (POST Example.env Example.storeAnaUsersFull Example.anaAgain).1 = internalError ∧
    (POST Example.env Example.storeAnaUsersFull Example.anaAgain).1.status = 500 ∧
    storeAfter Example.env Example.storeAnaUsersFull Example.anaAgain
      = Example.storeAnaUsersFull := by
  unfold Request.Valid Store.HasEmail Store.HasUsername
  decide

/-- Claim C5, as amended: when the users table has a rowid left and the store
already holds a user with the email of an otherwise valid request, or one with its
username, register answers 409 and the store is unchanged; the message names the
email when only the email is taken and the username when only the username is
taken. -/
theorem register_duplicate_email_or_username_conflict (env : Env) (store : Store)
    (req : Request) (hv : req.Valid) (hf : env.faults = Faults.none)
    (hroom : store.UserIdsLeft)
    (hd : store.HasEmail (text req.email) ∨ store.HasUsername (text req.username)) :
    (POST env store req).1.status = 409 ∧
    storeAfter env store req = store ∧
    (¬ store.HasUsername (text req.username) → (POST env store req).1 = emailTaken) ∧
    (¬ store.HasEmail (text req.email) → (POST env store req).1 = usernameTaken) := by
  unfold storeAfter
  rcases POST_duplicate_user env store req hv hf hroom hd with ⟨h, hx⟩ | ⟨h, hx⟩
  · rw [h]
    exact ⟨rfl, rfl, fun _ => rfl, fun hne => absurd hx hne⟩
  · rw [h]
    exact ⟨rfl, rfl, fun hne => absurd hx hne, fun _ => rfl⟩

/-- Witness of C5 as amended: a second registration with the email of Ana and
another username. -/
theorem register_duplicate_email_or_username_conflict_witness :
    (POST Example.env Example.storeAna Example.anaAgain).1
      = emailTaken ∧
    storeAfter Example.env Example.storeAna Example.anaAgain
      = Example.storeAna :=
  have h := register_duplicate_email_or_username_conflict Example.env Example.storeAna
    Example.anaAgain (by unfold Request.Valid; decide) rfl
    (by unfold Store.UserIdsLeft; decide)
    (Or.inl (by unfold Store.HasEmail; decide))
  ⟨h.2.2.1 (by unfold Store.HasUsername; decide), h.2.1⟩

/-! ## C6: Login does not reveal whether an identifier exists -/

/-- Claim C6: a login whose identifier matches no user and a login with an existing
username whose password does not match the fetched row get the same response,
status 401 with message "Invalid credentials.". -/
theorem login_unknown_identifier_equals_wrong_password (compare : String → String → Bool)
    (store : Store) (i1 p1 i2 p2 : Option String)
    (hi1 : ¬ Missing i1) (hp1 : ¬ Missing p1) (hi2 : ¬ Missing i2) (hp2 : ¬ Missing p2)
    (hunknown : ∀ u ∈ store.users,
      sqlLower u.email ≠ sqlLower (text i1) ∧ sqlLower u.username ≠ sqlLower (text i1))
    (hknown : store.HasUsername (text i2))
    (hwrong : ∀ u, Login.selectUser store (text i2) = some u →
      compare (text p2) u.password = false) :
    Login.POST compare store i1 p1 = Login.POST compare store i2 p2 ∧
    Login.POST compare store i1 p1 = ⟨401, .message "Invalid credentials."⟩ ∧
    Login.selectUser store (text i1) = none ∧
    Login.selectUser store (text i2) ≠ none := by
  have h1 := selectUser_none store (text i1) hunknown
  obtain ⟨u, hu⟩ := selectUser_of_username store (text i2) hknown
  have hw := hwrong u hu
  have a1 := truthy_of_not_missing _ hi1
  have a2 := truthy_of_not_missing _ hp1
  have a3 := truthy_of_not_missing _ hi2
  have a4 := truthy_of_not_missing _ hp2
  refine ⟨?_, ?_, h1, by simp [hu]⟩
  · simp [Login.POST, a1, a2, a3, a4, h1, hu, hw]
  · simp [Login.POST, a1, a2, h1]

/-- Witness of C6: the unknown identifier "nobody" and the username "ana" with a
wrong password. -/
theorem login_unknown_identifier_equals_wrong_password_witness :
    Login.POST Example.compare Example.storeAna (some "nobody") (some "secret1") =
      Login.POST Example.compare Example.storeAna (some "ana") (some "wrong") :=
  (login_unknown_identifier_equals_wrong_password Example.compare Example.storeAna
    (some "nobody") (some "secret1") (some "ana") (some "wrong")
    (by unfold Missing; decide) (by unfold Missing; decide)
    (by unfold Missing; decide) (by unfold Missing; decide)
    (by decide) (by unfold Store.HasUsername; decide)
    (by
      intro u hu
      have hsel : Login.selectUser Example.storeAna (text (some "ana")) = some Example.anaRow := by
        decide
      rw [hsel] at hu
      cases hu
      decide)).1

/-! ## C7: Case-insensitive login -/

/-- Claim C7, as stated, fails: Ana (email A@B.com) and Bob (email a@b.com) both
register; a login with A@B.COM, another casing of the email of Bob, and the
password of Bob fetches the row of Ana and is answered 401. -/
theorem login_case_insensitive_email_conflated :
    Reachable Example.storeAnaBob ∧
    Example.bobRow ∈ Example.storeAnaBob.users ∧
    Example.compare "secret2" Example.bobRow.password = true ∧
    sqlLower "A@B.COM" = sqlLower Example.bobRow.email ∧
    (Login.POST Example.compare Example.storeAnaBob (some "A@B.COM") (some "secret2")).status
      = 401 :=
  ⟨Reachable.register Example.env Example.bob
      (Reachable.register Example.env Example.ana Reachable.empty),
    by decide, by decide, by decide, by decide⟩

/-- Claim C7, as amended: when the identifier equals the email of a user row up to
the case of the letters A to Z, the password matches the hash of that row, and no
earlier row of the table matches the identifier on email or username, login
returns 200 with the view of that row. -/
theorem login_case_insensitive_first_match (compare : String → String → Bool)
    (store : Store) (pre post : List UserRow) (u : UserRow) (i p : String)
    (hs : store.users = pre ++ u :: post)
    (hpre : ∀ v ∈ pre, sqlLower v.email ≠ sqlLower i ∧ sqlLower v.username ≠ sqlLower i)
    (hcase : sqlLower i = sqlLower u.email)
    (hpass : compare p u.password = true)
    (hi : i ≠ "") (hp : p ≠ "") :
    Login.POST compare store (some i) (some p) =
      ⟨200, .success "Login successful."
        { id := u.id, email := u.email, username := u.username,
          firstName := u.first_name, lastName := u.last_name }⟩ := by
  have h := selectUser_first store i pre post u hs hpre (Or.inl hcase.symm)
  simp [Login.POST, truthy, hi, hp, text, h, hpass]

/-- Witness of C7 as amended: Ana logs in with another casing of her email. -/
theorem login_case_insensitive_first_match_witness :
    Login.POST Example.compare Example.storeAnaBob (some "a@b.COM") (some "secret1") =
      ⟨200, .success "Login successful."
        { id := 1, email := "A@B.com", username := "ana", firstName := "Ana",
          lastName := "Diaz" }⟩ :=
  login_case_insensitive_first_match Example.compare Example.storeAnaBob []
    [Example.bobRow] Example.anaRow "a@b.COM" "secret1" (by decide) (by decide) (by decide)
    (by decide) (by decide) (by decide)

/-! ## C8: Password length boundary -/

/-- Claim C8: with every other input valid (a present password, the other fields
valid, tables that have a rowid left for the rows of the request) and no uniqueness
conflict, register answers with the weak-password response exactly when the
password length is below 6, and with 201 exactly when it is at least 6; so length
5 is rejected and length 6 accepted. -/
theorem register_password_length_boundary (env : Env) (store : Store) (req : Request)
    (h1 : ¬ Missing req.firstName) (h2 : ¬ Missing req.lastName)
    (h3 : ¬ Missing req.username) (h4 : ¬ Missing req.email) (h5 : ¬ Missing req.password)
    (ht : req.termsAccepted = JsVal.bool true) (hf : env.faults = Faults.none)
    (he : ¬ store.HasEmail (text req.email)) (hu : ¬ store.HasUsername (text req.username))
    (hc : req.WantsCompany → ¬ store.MatchesCompany (text req.companyName) ∧
      ¬ store.HasCompanyName (jsTrim (text req.companyName)))
    (hr : store.RolesReferUsers)
    (hroom : store.UserIdsLeft)
    (hroomc : req.WantsCompany → store.CompanyIdsLeft ∧ store.RoleIdsLeft) :
    ((POST env store req).1 = weakPassword ↔ jsLength (text req.password) < 6) ∧
    ((POST env store req).1.status = 201 ↔ 6 ≤ jsLength (text req.password)) ∧
    (jsLength (text req.password) = 5 → (POST env store req).1 = weakPassword) ∧
    (jsLength (text req.password) = 6 → (POST env store req).1.status = 201) := by
  have a1 := truthy_of_not_missing _ h1
  have a2 := truthy_of_not_missing _ h2
  have a3 := truthy_of_not_missing _ h3
  have a4 := truthy_of_not_missing _ h4
  have a5 := truthy_of_not_missing _ h5
  have hweak : jsLength (text req.password) < 6 → (POST env store req).1 = weakPassword := by
    intro hl
    simp [POST, a1, a2, a3, a4, a5, ht, hl]
  have hok : 6 ≤ jsLength (text req.password) → (POST env store req).1.status = 201 := by
    intro hl
    have hv : req.Valid := ⟨a1, a2, a3, a4, a5, hl, ht⟩
    by_cases hw : req.WantsCompany
    · rw [POST_with_company env store req hv hf he hu hw (hc hw).1 (hc hw).2
        (nextPairFree_of_rolesReferUsers store hr) hroom (hroomc hw).1 (hroomc hw).2]
      rfl
    · rw [POST_without_company env store req hv hf hroom he hu hw]
      rfl
  refine ⟨⟨fun h => ?_, hweak⟩, ⟨fun h => ?_, hok⟩, fun h => hweak (by omega),
    fun h => hok (by omega)⟩
  · by_contra hl
    have := hok (by omega)
    rw [h] at this
    simp [weakPassword] at this
  · by_contra hl
    have := hweak (by omega)
    rw [this] at h
    simp [weakPassword] at h

/-- Witness of C8: a password of five characters on the empty store. -/
theorem register_password_length_boundary_witness :
    jsLength "12345" = 5 ∧
    (POST Example.env Store.empty Example.fiveChars).1
      = weakPassword :=
  ⟨by decide,
    (register_password_length_boundary Example.env Store.empty
      Example.fiveChars
      (by unfold Missing; decide) (by unfold Missing; decide) (by unfold Missing; decide)
      (by unfold Missing; decide) (by unfold Missing; decide) rfl rfl
      (by unfold Store.HasEmail; decide) (by unfold Store.HasUsername; decide)
      (fun _ => ⟨by unfold Store.MatchesCompany; decide,
        by unfold Store.HasCompanyName; decide⟩)
      (by unfold Store.RolesReferUsers; decide)
      (by unfold Store.UserIdsLeft; decide)
      (fun _ => ⟨by unfold Store.CompanyIdsLeft; decide,
        by unfold Store.RoleIdsLeft; decide⟩)).2.2.1 (by decide)⟩

/-! ## C9: Terms acceptance -/

/-- Claim C9, as stated, fails: with the five required fields present, an absent
`termsAccepted` is answered with the missing-field message, and a false
`termsAccepted` with a password of three characters with the weak-password
message. -/
theorem register_terms_response_depends_on_order :
    (¬ Missing Example.noTerms.firstName ∧ ¬ Missing Example.noTerms.lastName ∧
      ¬ Missing Example.noTerms.username ∧ ¬ Missing Example.noTerms.email ∧
      ¬ Missing Example.noTerms.password ∧ Example.noTerms.termsAccepted.truthy = false ∧
      (POST Example.env Store.empty Example.noTerms).1 = missingField ∧
      (POST Example.env Store.empty Example.noTerms).1 ≠ termsNotAccepted) ∧
    (¬ Missing Example.shortNoTerms.firstName ∧ ¬ Missing Example.shortNoTerms.lastName ∧
      ¬ Missing Example.shortNoTerms.username ∧ ¬ Missing Example.shortNoTerms.email ∧
      ¬ Missing Example.shortNoTerms.password ∧
      Example.shortNoTerms.termsAccepted.truthy = false ∧
      (POST Example.env Store.empty Example.shortNoTerms).1 = weakPassword ∧
      (POST Example.env Store.empty Example.shortNoTerms).1 ≠ termsNotAccepted) := by
  unfold Missing
  decide

/-- Claim C9, as amended: with the five required fields present and `termsAccepted`
not truthy, register answers 400 and executes no statement; the response is the
terms response when `termsAccepted` is present and the password has length at
least 6, the missing-field response when `termsAccepted` is absent, and the
weak-password response when it is present and the password is shorter than 6. -/
theorem register_terms_not_accepted (env : Env) (store : Store) (req : Request)
    (h1 : ¬ Missing req.firstName) (h2 : ¬ Missing req.lastName)
    (h3 : ¬ Missing req.username) (h4 : ¬ Missing req.email) (h5 : ¬ Missing req.password)
    (ht : req.termsAccepted.truthy = false) :
    (POST env store req).1.status = 400 ∧
    (POST env store req).2 = ⟨store, none⟩ ∧
    storeAfter env store req = store ∧
    (req.termsAccepted ≠ JsVal.undefined → 6 ≤ jsLength (text req.password) →
      (POST env store req).1 = termsNotAccepted) ∧
    (req.termsAccepted = JsVal.undefined → (POST env store req).1 = missingField) ∧
    (req.termsAccepted ≠ JsVal.undefined → jsLength (text req.password) < 6 →
      (POST env store req).1 = weakPassword) := by
  have a1 := truthy_of_not_missing _ h1
  have a2 := truthy_of_not_missing _ h2
  have a3 := truthy_of_not_missing _ h3
  have a4 := truthy_of_not_missing _ h4
  have a5 := truthy_of_not_missing _ h5
  unfold storeAfter
  by_cases hundef : req.termsAccepted = JsVal.undefined
  · simp [POST, a1, a2, a3, a4, a5, hundef, missingField]
  · by_cases hl : jsLength (text req.password) < 6
    · simp [POST, a1, a2, a3, a4, a5, hundef, hl, weakPassword]
    · simp [POST, a1, a2, a3, a4, a5, hundef, hl, ht, termsNotAccepted, Nat.not_lt.mp hl]

/-- Witness of C9 as amended: Dan sends `termsAccepted` false. -/
theorem register_terms_not_accepted_witness :
    (POST Example.env Store.empty Example.danRefuses).1
      = termsNotAccepted :=
  (register_terms_not_accepted Example.env Store.empty
    Example.danRefuses
    (by unfold Missing; decide) (by unfold Missing; decide) (by unfold Missing; decide)
    (by unfold Missing; decide) (by unfold Missing; decide) (by decide)).2.2.2.1
    (by decide) (by decide)

/-! ## C10: Required fields -/

/-- Claim C10: when at least one of firstName, lastName, username, email, password
is missing or empty, register answers 400 with the missing-field message, whatever
the store and the injected failures, executes no statement and leaves the store
unchanged. -/
theorem register_missing_field_rejected (env : Env) (store : Store) (req : Request)
    (h : Missing req.firstName ∨ Missing req.lastName ∨ Missing req.username ∨
      Missing req.email ∨ Missing req.password) :
    (POST env store req).1 = missingField ∧
    (POST env store req).1.status = 400 ∧
    (POST env store req).2 = ⟨store, none⟩ ∧
    storeAfter env store req = store := by
  have hp : POST env store req = (missingField, ⟨store, none⟩) := by
    unfold POST
    rcases h with h | h | h | h | h <;>
      simp [not_truthy_of_missing _ h]
  unfold storeAfter
  rw [hp]
  exact ⟨rfl, rfl, rfl, rfl⟩

/-- Witness of C10: Dan sends an empty email. -/
theorem register_missing_field_rejected_witness :
    (POST Example.envRoleFails Example.storeAna Example.danNoEmail).1
      = missingField ∧
    storeAfter Example.envRoleFails Example.storeAna Example.danNoEmail
      = Example.storeAna :=
  have h := register_missing_field_rejected Example.envRoleFails Example.storeAna
    Example.danNoEmail
    (Or.inr (Or.inr (Or.inr (Or.inl (Or.inr rfl)))))
  ⟨h.1, h.2.2.2⟩

/-! ## C11: Sanitized login view -/

/-- Claim C11: a login answered 200 returns exactly the fields id, email, username,
firstName and lastName of the row the lookup fetched; the response does not depend
on the stored password hash or reset-token fields: with these replaced in every
row, a login answered 200 returns the same response. -/
theorem login_success_returns_sanitized_view (compare compare2 : String → String → Bool)
    (store : Store) (i p : Option String)
    (secrets : UserRow → String × Option String × Option String)
    (h : (Login.POST compare store i p).status = 200) :
    (∃ u ∈ store.users, Login.selectUser store (text i) = some u ∧
      Login.POST compare store i p =
        ⟨200, .success "Login successful."
          { id := u.id, email := u.email, username := u.username,
            firstName := u.first_name, lastName := u.last_name }⟩) ∧
    ((Login.POST compare2 (store.withSecrets secrets) i p).status = 200 →
      Login.POST compare2 (store.withSecrets secrets) i p = Login.POST compare store i p) := by
  obtain ⟨u, hu, hr⟩ := login_success_inv compare store i p h
  refine ⟨⟨u, selectUser_mem _ _ _ hu, hu, hr⟩, fun h2 => ?_⟩
  obtain ⟨v, hv, hr2⟩ := login_success_inv compare2 _ i p h2
  rw [selectUser_withSecrets, hu] at hv
  simp only [Option.map_some', Option.some.injEq] at hv
  rw [hr, hr2, ← hv]

/-- Witness of C11: Ana logs in on the store of Ana and Bob. -/
theorem login_success_returns_sanitized_view_witness :
    Login.POST Example.compare Example.storeAnaBob (some "ana") (some "secret1") =
      ⟨200, .success "Login successful."
        { id := 1, email := "A@B.com", username := "ana", firstName := "Ana",
          lastName := "Diaz" }⟩ ∧
    Login.POST (fun _ _ => true)
        (Example.storeAnaBob.withSecrets (fun _ => ("", some "token", some "never")))
        (some "ana") (some "secret1") =
      Login.POST Example.compare Example.storeAnaBob (some "ana") (some "secret1") :=
  have h := login_success_returns_sanitized_view Example.compare (fun _ _ => true)
    Example.storeAnaBob (some "ana") (some "secret1")
    (fun _ => ("", some "token", some "never")) (by decide)
  ⟨by decide, h.2 (by decide)⟩

/-! ## C12: Uniqueness of email and username -/

/-- Claim C12 fails on the code: after Ana (email A@B.com, username ana), a
registration with email a@b.com and username ANA is answered 201, so a reachable
store holds two user rows whose emails are equal ignoring case and whose usernames
are equal ignoring case; the second user cannot log in with her own email or
username, because the lookup fetches the row of Ana. -/
theorem register_admits_case_variant_email_and_username :
    Reachable Example.storeAnaUpper ∧
    (POST Example.env Example.storeAna Example.anaUpper).1.status = 201 ∧
    Example.storeAnaUpper.users.map (·.id) = [1, 2] ∧
    Example.storeAnaUpper.users.map (·.email) = ["A@B.com", "a@b.com"] ∧
    Example.storeAnaUpper.users.map (·.username) = ["ana", "ANA"] ∧
    sqlLower "A@B.com" = sqlLower "a@b.com" ∧
    sqlLower "ana" = sqlLower "ANA" ∧
    (Login.POST Example.compare Example.storeAnaUpper (some "a@b.com") (some "secret8")).status
      = 401 ∧
    (Login.POST Example.compare Example.storeAnaUpper (some "ANA") (some "secret8")).status
      = 401 :=
  ⟨Reachable.register Example.env Example.anaUpper
      (Reachable.register Example.env Example.ana Reachable.empty),
    by decide, by decide, by decide, by decide, by decide, by decide, by decide, by decide⟩

/-! ## C13: Owner and role are never split -/

/-- Claim C13: in every store reachable from the empty store by register calls,
successful or failing, every company is owned by an existing user, that owner has
exactly one role row for the company and the row says owner, and no pair (user,
company) has more than one role row. -/
theorem reachable_owner_and_role_never_split (s : Store) (h : Reachable s) :
    (∀ c ∈ s.companies,
      (∃ u ∈ s.users, u.id = c.owner_user_id) ∧
      s.roleCount c.owner_user_id c.id = 1 ∧
      ∀ r ∈ s.roles, r.user_id = c.owner_user_id → r.company_id = c.id → r.role = "owner") ∧
    ∀ userId companyId, s.roleCount userId companyId ≤ 1 := by
  have hl := Linked_of_reachable s h
  exact ⟨fun c hc => ⟨hl.owner_exists c hc, hl.owner_role c hc, hl.owner_named c hc⟩,
    hl.pair_unique⟩

/-- Witness of C13: the store after the registrations of Ana and Bob. -/
theorem reachable_owner_and_role_never_split_witness :
    Example.storeAnaBob.companies.map (·.owner_user_id) = [1] ∧
    ((∀ c ∈ Example.storeAnaBob.companies,
      (∃ u ∈ Example.storeAnaBob.users, u.id = c.owner_user_id) ∧
      Example.storeAnaBob.roleCount c.owner_user_id c.id = 1 ∧
      ∀ r ∈ Example.storeAnaBob.roles,
        r.user_id = c.owner_user_id → r.company_id = c.id → r.role = "owner") ∧
    ∀ userId companyId, Example.storeAnaBob.roleCount userId companyId ≤ 1) :=
  ⟨by decide,
    reachable_owner_and_role_never_split Example.storeAnaBob
      (Reachable.register Example.env Example.bob
        (Reachable.register Example.env Example.ana Reachable.empty))⟩

/-! ## C14: Register, then login -/

/-- Claim C14, as stated, fails: on the store of Ana (email A@B.com), Eve registers
with username A@B.com and is answered 201 with userId 2, and Bob registers with
email a@b.com and is answered 201 with userId 2; the login of Eve with her username
and the login of Bob with his email, each with the right password, fetch the row of
Ana and are answered 401. -/
theorem register_then_login_fetches_earlier_row :
    Reachable Example.storeAna ∧
    (∀ p, Example.compare p (Example.env.hash p) = true) ∧
    (POST Example.env Example.storeAna Example.eve).1 =
      ⟨201, .created "User registered successfully." 2 none⟩ ∧
    (Login.POST Example.compare (storeAfter Example.env Example.storeAna Example.eve)
      Example.eve.username Example.eve.password).status = 401 ∧
    (POST Example.env Example.storeAna Example.bob).1 =
      ⟨201, .created "User registered successfully." 2 none⟩ ∧
    (Login.POST Example.compare (storeAfter Example.env Example.storeAna Example.bob)
      Example.bob.email Example.bob.password).status = 401 :=
  ⟨Reachable.register Example.env Example.ana Reachable.empty,
    fun p => by simp [Example.compare, Example.env],
    by decide, by decide, by decide, by decide⟩

/-- Claim C14, as amended: when register answers 201 with userId i and compare
accepts the password against the hash stored for it, a following login with the
email and the password returns 200 with user.id = i provided no earlier user row
matches the email in the lookup (on email or username, ignoring the case of A to
Z), and likewise a following login with the username provided no earlier row
matches the username. -/
theorem register_then_login_first_match (compare : String → String → Bool) (env : Env)
    (store : Store) (req : Request) (message : String) (i : Nat) (k : Option Nat)
    (h201 : (POST env store req).1 = ⟨201, .created message i k⟩)
    (hcmp : compare (text req.password) (env.hash (text req.password)) = true) :
    (¬ store.Matches (text req.email) →
      ∃ view : Login.UserView, view.id = i ∧
        Login.POST compare (storeAfter env store req) req.email req.password =
          ⟨200, .success "Login successful." view⟩) ∧
    (¬ store.Matches (text req.username) →
      ∃ view : Login.UserView, view.id = i ∧
        Login.POST compare (storeAfter env store req) req.username req.password =
          ⟨200, .success "Login successful." view⟩) := by
  rcases POST_effect env store req with ⟨hne, -⟩ | ⟨he, hn, hp, hc⟩
  · rw [h201] at hne
    simp at hne
  · obtain ⟨u, hs, hue, hun, hup, -, -, k2, hresp⟩ := created_users _ _ _ _ _ _ hc
    have hid : u.id = i := by
      rw [h201] at hresp
      simp only [created, Response.mk.injEq, Body.created.injEq, true_and] at hresp
      exact hresp.2.1.symm
    have hpw : compare (text req.password) u.password = true := by
      rw [hup]
      exact hcmp
    refine ⟨fun hfree => ?_, fun hfree => ?_⟩
    · refine ⟨_, hid, login_after_created compare store _ u req.email req.password hs he hp
        (Or.inl (by rw [hue])) hfree hpw⟩
    · refine ⟨_, hid, login_after_created compare store _ u req.username req.password hs hn hp
        (Or.inr (by rw [hun])) hfree hpw⟩

/-- Witness of C14 as amended: Dan registers after Ana and logs in with his email. -/
theorem register_then_login_first_match_witness :
    ∃ view : Login.UserView, view.id = 2 ∧
      Login.POST Example.compare (storeAfter Example.env Example.storeAna Example.dan)
        Example.dan.email Example.dan.password = ⟨200, .success "Login successful." view⟩ :=
  (register_then_login_first_match Example.compare Example.env Example.storeAna Example.dan
    "User registered successfully and company created." 2 (some 2) (by decide)
    (by decide)).1 (by unfold Store.Matches; decide)

end Contabilito
